import Mathlib

/-!
# Verification of the WRF post-processing accessor (`wrfpp.py`)

This file gives a shallow embedding, in Lean 4, of the derived-quantity /
geometry subsystem of the WRF-infra repository (`src/postprocess/wrfpp.py`)
and proves properties of it.

Modelling conventions:

* A labelled N-dimensional array (`xarray.DataArray`) is a `Var`: an ordered
  list of dimension names, a shape, a flat string attribute map, and data
  given as a total function from multi-indices to rationals.  Machine floats
  are modelled by `ℚ`; the floating-point power and exponential functions
  used by some derived variables are taken as explicit function parameters
  (`rpow`, `qexp`), so every theorem quantifies over them.
* A dataset (`xarray.Dataset`) is a `Dataset`: dataset-level attributes
  (heterogeneous: numeric or string, like netCDF attributes) and a list of
  named variables.
* Fallible Python code is modelled in the `Except Err` monad.  The
  constructors of `Err` correspond to the distinguishable raise sites of the
  Python code: `missingKey` models `KeyError` (the spec's
  MissingAttributeError), `unitMismatch expected actual` models the
  `ValueError('Bad units: expected "...", got "..."')` raised by
  `check_units` (the spec's UnitMismatchError; it carries exactly the
  expected and the actual normalized units), `valueError` and
  `notImplementedError` model `ValueError` and `NotImplementedError`,
  `typeError` models `TypeError` on a non-numeric attribute.
* Positional basic indexing (`__getitem__(*args)` with slice objects) is
  modelled by `Slice`: a per-axis list of index maps and size maps applied
  to the leading axes, the rank-preserving fragment of numpy basic indexing
  that the derived-variable chain supports.
-/

namespace WrfPP

/-- A netCDF-style attribute value: numeric or string. -/
inductive AttrVal where
  | num (q : ℚ)
  | str (s : String)
deriving DecidableEq, Repr

/-- The error taxonomy, one constructor per distinguishable raise site of
the Python code (see module docstring for the correspondence). -/
inductive Err where
  | missingKey (key : String)
  | typeError (key : String)
  | unitMismatch (expected : String) (actual : Option String)
  | valueError (msg : String)
  | notImplementedError (msg : String)
deriving DecidableEq, Repr

/-- One axis of a positional basic-indexing operation: how the axis size is
transformed and how a result index is mapped back to a source index. -/
structure AxisSel where
  size : Nat → Nat
  map : Nat → Nat

/-- A positional slice: axis selections applied to the leading axes, the
trailing axes are untouched (numpy semantics of `a[s1, s2]` on higher-rank
`a`). -/
abbrev Slice := List AxisSel

/-- Map a result multi-index of a sliced array to the corresponding source
multi-index. -/
def applySliceIdx : Slice → List Nat → List Nat
  | [], i => i
  | _, [] => []
  | a :: s, k :: i => a.map k :: applySliceIdx s i

/-- Map a source shape to the shape of the sliced array. -/
def applySliceShape : Slice → List Nat → List Nat
  | [], sh => sh
  | _, [] => []
  | a :: s, n :: sh => a.size n :: applySliceShape s sh

/-- A labelled array (`xarray.DataArray`): dimension names, shape, flat
attribute map, and data as a total function on multi-indices. -/
structure Var where
  name : String
  dims : List String
  shape : List Nat
  attrs : List (String × String)
  data : List Nat → ℚ

/-- A dataset (`xarray.Dataset`): dataset-level attributes and named
variables. -/
structure Dataset where
  attrs : List (String × AttrVal)
  vars : List (String × Var)

/-- Variable lookup, `dataset[varname]`; raises `KeyError` when absent. -/
def Dataset.getVar (ds : Dataset) (nm : String) : Except Err Var :=
  match ds.vars.lookup nm with
  | some v => .ok v
  | none => .error (.missingKey nm)

/-- Numeric dataset-level attribute lookup, `self.attrs[key]` used in a
numeric context. -/
def Dataset.numAttr (ds : Dataset) (key : String) : Except Err ℚ :=
  match ds.attrs.lookup key with
  | some (.num q) => .ok q
  | some (.str _) => .error (.typeError key)
  | none => .error (.missingKey key)

/-- Dataset-level attribute lookup with a default, `self.attrs.get(key, d)`. -/
def Dataset.attrD (ds : Dataset) (key : String) (dflt : AttrVal) : AttrVal :=
  (ds.attrs.lookup key).getD dflt

/-- `GenericDatasetAccessor.units`: the raw unit string of a variable, from
the "units" attribute, falling back to "unit"; `KeyError` when neither is
present. -/
def Dataset.units (ds : Dataset) (varname : String) : Except Err String := do
  let v ← ds.getVar varname
  match v.attrs.lookup "units" with
  | some u => pure u
  | none =>
    match v.attrs.lookup "unit" with
    | some u => pure u
    | none => throw (.missingKey "unit")

/-- The literal replacement table of `GenericDatasetAccessor.units_nice`:
`some none` marks a dimensionless spelling, `some (some u)` a canonical
respelling, `none` a unit string that is not in the table. -/
def unitsReplacements (u : String) : Option (Option String) :=
  if u = "-" then some none
  else if u = "1" then some none
  else if u = "m2/s2" then some (some "m2 s-2")
  else if u = "kg/m2" then some (some "kg m-2")
  else if u = "kg/(s*m2)" then some (some "kg m-2 s-1")
  else if u = "kg/(m2*s)" then some (some "kg m-2 s-1")
  else if u = "kg/m2/s" then some (some "kg m-2 s-1")
  else if u = "W m\x7b-2\x7d" then some (some "W m-2")
  else none

/-- `GenericDatasetAccessor.units_nice`: the recorded unit string passed
through the literal replacement table; unlisted strings are returned
verbatim, dimensionless markers become `none`. -/
def Dataset.units_nice (ds : Dataset) (varname : String) :
    Except Err (Option String) := do
  let u ← ds.units varname
  match unitsReplacements u with
  | some r => pure r
  | none => pure (some u)

/-- `GenericDatasetAccessor.check_units`: compare the (normalized, when
`nice`) recorded units of a variable against the expected units, raising
the unit-mismatch error (which carries both) when they differ. -/
def Dataset.check_units (ds : Dataset) (varname expected : String)
    (nice : Bool) : Except Err Unit := do
  let actual ←
    if nice then ds.units_nice varname
    else do
      let v ← ds.getVar varname
      match v.attrs.lookup "units" with
      | some u => pure (some u)
      | none => throw (.missingKey "units")
  if actual ≠ some expected then throw (.unitMismatch expected actual)
  else pure ()

/-- The physical constants dictionary of `wrfpp.py` (SI units). -/
def constants (key : String) : ℚ :=
  if key = "pot_temp_t0" then 300
  else if key = "pot_temp_p0" then 100000
  else if key = "r_air" then 287
  else if key = "cp_air" then 1004.5
  else if key = "mm_dryair" then 0.028966
  else if key = "mm_water" then 0.018015
  else if key = "grav_accel" then 9.81
  else 0

-- Elementwise operations on labelled arrays

/-- Position of a dimension name in a dims list (`list.index`-style; length
of the list when absent). -/
def posIn (dims : List String) (d : String) : Nat :=
  dims.findIdx (fun e => e == d)

/-- Select, from a result multi-index over `rdims`, the components that
belong to an operand with dimension names `srcDims`. -/
def selectDims (rdims srcDims : List String) (i : List Nat) : List Nat :=
  (srcDims.map (fun d => posIn rdims d)).map (fun p => i.getD p 0)

/-- Elementwise binary operation with xarray broadcasting by dimension
name: the result dims are the first operand's dims followed by the second
operand's extra dims; each operand is indexed by its own dims' positions.
Models the aligned case (shared dims agree in size), which is the only one
the derived-variable chain produces; xarray raises otherwise.  Binary
operations drop attributes and the name (xarray default). -/
def Var.ew (f : ℚ → ℚ → ℚ) (a b : Var) : Var :=
  let rdims := a.dims ++ b.dims.filter (fun d => !(a.dims.contains d))
  { name := ""
    dims := rdims
    shape := rdims.map (fun d =>
      if a.dims.contains d then a.shape.getD (posIn a.dims d) 0
      else b.shape.getD (posIn b.dims d) 0)
    attrs := []
    data := fun i =>
      f (a.data (selectDims rdims a.dims i)) (b.data (selectDims rdims b.dims i)) }

/-- Elementwise unary operation (array-with-scalar arithmetic); drops the
attributes and name like any xarray arithmetic. -/
def Var.mapData (f : ℚ → ℚ) (a : Var) : Var :=
  { a with name := "", attrs := [], data := fun i => f (a.data i) }

/-- Positional basic indexing `v[args]` for a rank-preserving slice. -/
def Var.getSlice (v : Var) (s : Slice) : Var :=
  { v with shape := applySliceShape s v.shape,
           data := fun i => v.data (applySliceIdx s i) }

/-- `DataArray.diff(dim)` (n=1, label="upper"): forward difference along a
named axis; the axis shrinks by one. -/
def Var.diff (v : Var) (dim : String) : Var :=
  let p := posIn v.dims dim
  { v with shape := v.shape.set p (v.shape.getD p 0 - 1),
           data := fun i => v.data (i.set p (i.getD p 0 + 1)) - v.data i }

/-- `DataArray.rename({src: dst})`: rename one dimension. -/
def Var.rename (v : Var) (src dst : String) : Var :=
  { v with dims := v.dims.map (fun d => if d = src then dst else d) }

/-- `DataArray.sum(dim=...)`: sum out a named axis (drops attributes,
xarray default). -/
def Var.sumDim (v : Var) (dim : String) : Var :=
  let p := posIn v.dims dim
  let n := v.shape.getD p 0
  { name := ""
    dims := v.dims.eraseIdx p
    shape := v.shape.eraseIdx p
    attrs := []
    data := fun i => ∑ k in Finset.range n, v.data (i.take p ++ k :: i.drop p) }

/-- `DataArray.isel(dim=slice(start, len - dropEnd))`: restrict a named
axis. `start 0, dropEnd 1` is `slice(None, -1)`; `start 1, dropEnd 0` is
`slice(1, None)`. -/
def Var.iselDim (v : Var) (dim : String) (start dropEnd : Nat) : Var :=
  let p := posIn v.dims dim
  { v with shape := v.shape.set p (v.shape.getD p 0 - start - dropEnd),
           data := fun i => v.data (i.set p (i.getD p 0 + start)) }

/-- Wrapping a result in `xr.DataArray(data, name=..., attrs=...)`: same
dims, shape, and values; new name and attributes. -/
def mkDataArray (v : Var) (nm : String) (attrs : List (String × String)) : Var :=
  { v with name := nm, attrs := attrs }

-- Derived variables (`DerivedVariable.__getitem__` implementations).
-- Each takes the slice of interest and produces a labelled array;
-- `rpow`/`qexp` are the floating-point power and exponential functions.

/-- `WRFPotentialTemperature.__getitem__`: base-state offset plus the raw
perturbation potential temperature `T` (units K required). -/
def potential_temperature (ds : Dataset) (s : Slice) : Except Err Var := do
  ds.check_units "T" "K" true
  let v ← ds.getVar "T"
  pure (mkDataArray ((v.getSlice s).mapData (fun q => constants "pot_temp_t0" + q))
    "potential temperature"
    [("long_name", "Potential temperature"), ("units", "K")])

/-- `WRFAtmPressure.__getitem__`: raw perturbation pressure `P` plus raw
base-state pressure `PB` (units Pa required on both). -/
def atm_pressure (ds : Dataset) (s : Slice) : Except Err Var := do
  ds.check_units "P" "Pa" true
  ds.check_units "PB" "Pa" true
  let p ← ds.getVar "P"
  let pb ← ds.getVar "PB"
  pure (mkDataArray (Var.ew (· + ·) (p.getSlice s) (pb.getSlice s))
    "atmospheric pressure"
    [("long_name", "Atmospheric pressure"), ("units", "Pa")])

/-- `WRFAirTemperature.__getitem__`: potential temperature times
`(pressure / p0) ** (r_air / cp_air)`. -/
def air_temperature (rpow : ℚ → ℚ → ℚ) (ds : Dataset) (s : Slice) :
    Except Err Var := do
  let pot_temp ← potential_temperature ds s
  let pressure ← atm_pressure ds s
  let expo := constants "r_air" / constants "cp_air"
  pure (mkDataArray
    (Var.ew (· * ·) pot_temp
      (pressure.mapData (fun q => rpow (q / constants "pot_temp_p0") expo)))
    "air temperature"
    [("long_name", "Air temperature"), ("units", "K")])

/-- `WRFDensityOfDryAir.__getitem__`: pressure / (r_air × air temperature). -/
def density_of_dry_air (rpow : ℚ → ℚ → ℚ) (ds : Dataset) (s : Slice) :
    Except Err Var := do
  let pressure ← atm_pressure ds s
  let air_temp ← air_temperature rpow ds s
  pure (mkDataArray
    (Var.ew (· / ·) pressure (air_temp.mapData (fun q => constants "r_air" * q)))
    "dry air density"
    [("long_name", "Dry air density"), ("units", "kg m-3")])

/-- `WRFRelativeHumidity.__getitem__`: Tetens-type saturation vapor
pressure from air temperature (inputs in degrees C, output Pa), combined
with the water-vapor mixing ratio `QVAPOR` (units kg/kg required). -/
def relative_humidity (rpow : ℚ → ℚ → ℚ) (qexp : ℚ → ℚ)
    (ds : Dataset) (s : Slice) : Except Err Var := do
  ds.check_units "QVAPOR" "kg kg-1" true
  let qv ← ds.getVar "QVAPOR"
  let q := qv.getSlice s
  let air_temp ← air_temperature rpow ds s
  let temperature := air_temp.mapData (fun x => x - 273.15)
  let psat := temperature.mapData
    (fun tc => 611.2 * qexp (17.67 * tc / (tc + 243.5)))
  let pressure ← atm_pressure ds s
  let r := constants "mm_water" / constants "mm_dryair"
  let qsat := Var.ew (· / ·) (psat.mapData (fun x => r * x))
    (Var.ew (· - ·) pressure psat)
  pure (mkDataArray (Var.ew (· / ·) (q.mapData (fun x => 100 * x)) qsat)
    "relative humidity"
    [("long_name", "Relative humidity"), ("units", "%")])

/-- `WRFAccumulatedPrecipitation.__getitem__`: `RAINNC + RAINC`
(units mm required on both). -/
def accumulated_precipitation (ds : Dataset) (s : Slice) : Except Err Var := do
  ds.check_units "RAINNC" "mm" true
  ds.check_units "RAINC" "mm" true
  let rainnc ← ds.getVar "RAINNC"
  let rainc ← ds.getVar "RAINC"
  pure (mkDataArray
    (Var.ew (· + ·) (rainnc.getSlice s) (rainc.getSlice s))
    "accumulated total precipitation"
    [("long_name", "Accumulated total precipitation"), ("units", "mm")])

/-- `WRFGridCellArea.__getitem__`: `DX * DY / MAPFAC_M**2` (no unit check
is performed on the map factor in the code). -/
def grid_cell_area (ds : Dataset) (s : Slice) : Except Err Var := do
  let dx ← ds.numAttr "DX"
  let dy ← ds.numAttr "DY"
  let mapfrac_m ← ds.getVar "MAPFAC_M"
  pure (mkDataArray
    ((mapfrac_m.getSlice s).mapData (fun q => dx * dy / (q * q)))
    "grid cell area"
    [("long_name", "Grid Cell Area"), ("units", "m2")])

/-- `WRFAltitudeASL.__getitem__`: `(PH + PHB) / g` (units m2 s-2 required
on both); lives on the staggered vertical axis. -/
def altitude_asl (ds : Dataset) (s : Slice) : Except Err Var := do
  ds.check_units "PH" "m2 s-2" true
  ds.check_units "PHB" "m2 s-2" true
  let ph ← ds.getVar "PH"
  let phb ← ds.getVar "PHB"
  pure (mkDataArray
    ((Var.ew (· + ·) (ph.getSlice s) (phb.getSlice s)).mapData
      (fun q => q / constants "grav_accel"))
    "Altitude above sea level"
    [("long_name", "Altitude above sea level"), ("units", "m")])

/-- `WRFAltitudeAGL.__getitem__`: altitude above sea level minus the raw
terrain height `HGT` (units m required). -/
def altitude_agl (ds : Dataset) (s : Slice) : Except Err Var := do
  ds.check_units "HGT" "m" true
  let hgt ← ds.getVar "HGT"
  let asl ← altitude_asl ds s
  pure (mkDataArray (Var.ew (· - ·) asl (hgt.getSlice s))
    "Altitude above ground level"
    [("long_name", "Altitude above ground level"), ("units", "m")])

/-- `WRFCloudLiquidWaterPath.__getitem__`: vertical sum over the
unstaggered vertical axis of dry-air density × `QCLOUD` (units kg/kg
required) × the forward difference of altitude-ASL re-labelled onto the
unstaggered axis. -/
def cloud_liquid_water_path (rpow : ℚ → ℚ → ℚ) (ds : Dataset) (s : Slice) :
    Except Err Var := do
  ds.check_units "QCLOUD" "kg kg-1" true
  let qcv ← ds.getVar "QCLOUD"
  let qc := qcv.getSlice s
  let air_den ← density_of_dry_air rpow ds s
  let cloud_water_content := Var.ew (· * ·) air_den qc
  let alt_asl ← altitude_asl ds s
  let box_height := (alt_asl.diff "bottom_top_stag").rename
    "bottom_top_stag" "bottom_top"
  let liquid_water_path := Var.ew (· * ·) cloud_water_content box_height
  pure (mkDataArray (liquid_water_path.sumDim "bottom_top")
    "cloud liquid water path"
    [("long_name", "Cloud liquid water path"), ("units", "kg m-2")])

/-- `WRFAltitudeASL_C.__getitem__`: arithmetic mean of adjacent staggered
ASL levels, re-labelled onto the unstaggered vertical axis. -/
def altitude_asl_c (ds : Dataset) (s : Slice) : Except Err Var := do
  let alt ← altitude_asl ds s
  let alt_center := (Var.ew (· + ·)
    (alt.iselDim "bottom_top_stag" 0 1)
    (alt.iselDim "bottom_top_stag" 1 0)).mapData (fun q => q / 2)
  pure (mkDataArray (alt_center.rename "bottom_top_stag" "bottom_top")
    "Altitude grid box centerpoint above sea level"
    [("long_name", "Altitude grid box centerpoint above sea level"),
     ("units", "m")])

/-- `WRFAltitudeAGL_C.__getitem__`: arithmetic mean of adjacent staggered
AGL levels, re-labelled onto the unstaggered vertical axis. -/
def altitude_agl_c (ds : Dataset) (s : Slice) : Except Err Var := do
  let alt ← altitude_agl ds s
  let alt_center := (Var.ew (· + ·)
    (alt.iselDim "bottom_top_stag" 0 1)
    (alt.iselDim "bottom_top_stag" 1 0)).mapData (fun q => q / 2)
  pure (mkDataArray (alt_center.rename "bottom_top_stag" "bottom_top")
    "Altitude grid box centerpoint above ground level"
    [("long_name", "Altitude grid box centerpoint above ground level"),
     ("units", "m")])

/-- `WRFBoxDz.__getitem__`: forward difference of altitude-AGL across
adjacent staggered levels, re-labelled onto the unstaggered vertical
axis. -/
def box_dz (ds : Dataset) (s : Slice) : Except Err Var := do
  let alt ← altitude_agl ds s
  let dz := Var.ew (· - ·)
    (alt.iselDim "bottom_top_stag" 1 0)
    (alt.iselDim "bottom_top_stag" 0 1)
  pure (mkDataArray (dz.rename "bottom_top_stag" "bottom_top")
    "WRF grid box dz (vertical extent)"
    [("long_name", "WRF grid box dz (vertical extent)"), ("units", "m")])

-- Projection reconstruction (`WRFDatasetAccessor.crs_pyproj`)

/-- The reconstructed projection descriptor: the parameter dictionary
passed to `pyproj.CRS.from_dict` for the two supported families. -/
inductive Proj where
  | lcc (lat_0 lon_0 lat_1 lat_2 : ℚ)
  | stere (lat_0 lat_ts lon_0 : ℚ)
deriving DecidableEq, Repr

/-- Round a rational to 4 decimal places (Python `round(x, 4)`; ties are
immaterial to every statement below and are modelled as round-half-up). -/
def round4 (q : ℚ) : ℚ := (round (q * 10000) : ℤ) / 10000

/-- `WRFDatasetAccessor._crs_pyproj_lcc`: build the Lambert Conformal
Conic projection, validating the descriptive family name and the
redundantly-stored central longitude/latitude copies. -/
def crs_pyproj_lcc (ds : Dataset) : Except Err Proj := do
  let map_proj_char := ds.attrD "MAP_PROJ_CHAR" (.str "Lambert Conformal Conic")
  if map_proj_char ≠ .str "Lambert Conformal Conic" then
    throw (.valueError "Invalid value for MAP_PROJ_CHAR.")
  let stand_lon ← ds.numAttr "STAND_LON"
  let cen_lon ← ds.numAttr "CEN_LON"
  if stand_lon ≠ cen_lon then
    throw (.valueError "Inconsistency in central longitude values.")
  let moad_cen_lat ← ds.numAttr "MOAD_CEN_LAT"
  let cen_lat ← ds.numAttr "CEN_LAT"
  if moad_cen_lat ≠ cen_lat then
    throw (.valueError "Inconsistency in central latitude values.")
  let truelat1 ← ds.numAttr "TRUELAT1"
  let truelat2 ← ds.numAttr "TRUELAT2"
  pure (.lcc cen_lat cen_lon truelat1 truelat2)

/-- `WRFDatasetAccessor._crs_pyproj_polarstereo`: build the Polar
Stereographic projection, validating the family name, the central
longitude copies, and the three redundant true-latitude attributes
(matched to the central latitude after rounding both to 4 decimals). -/
def crs_pyproj_polarstereo (ds : Dataset) : Except Err Proj := do
  let map_proj_char := ds.attrD "MAP_PROJ_CHAR" (.str "Polar Stereographic")
  if map_proj_char ≠ .str "Polar Stereographic" then
    throw (.valueError "Invalid value for MAP_PROJ_CHAR.")
  let stand_lon ← ds.numAttr "STAND_LON"
  let cen_lon ← ds.numAttr "CEN_LON"
  if stand_lon ≠ cen_lon then
    throw (.valueError "Inconsistency in central longitude values.")
  -- for which in ("TRUELAT1", "TRUELAT2", "MOAD_CEN_LAT"), unrolled
  let truelat1 ← ds.numAttr "TRUELAT1"
  let cen_lat1 ← ds.numAttr "CEN_LAT"
  if round4 truelat1 ≠ round4 cen_lat1 then
    throw (.valueError "Inconsistency in true latitude values.")
  let truelat2 ← ds.numAttr "TRUELAT2"
  let cen_lat2 ← ds.numAttr "CEN_LAT"
  if round4 truelat2 ≠ round4 cen_lat2 then
    throw (.valueError "Inconsistency in true latitude values.")
  let moad_cen_lat ← ds.numAttr "MOAD_CEN_LAT"
  let cen_lat3 ← ds.numAttr "CEN_LAT"
  if round4 moad_cen_lat ≠ round4 cen_lat3 then
    throw (.valueError "Inconsistency in true latitude values.")
  let pole_lat ← ds.numAttr "POLE_LAT"
  let cen_lon2 ← ds.numAttr "CEN_LON"
  pure (.stere pole_lat truelat1 cen_lon2)

/-- `WRFDatasetAccessor.crs_pyproj`: validate the rotated-pole attributes
and dispatch on the numeric projection-family code `MAP_PROJ`. -/
def crs_pyproj (ds : Dataset) : Except Err Proj := do
  let pole_lon ← ds.numAttr "POLE_LON"
  if pole_lon ≠ 0 then
    throw (.valueError "Invalid POLE_LON.")
  let pole_lat ← ds.numAttr "POLE_LAT"
  if pole_lat ≠ 90 ∧ pole_lat ≠ -90 then
    throw (.valueError "Invalid value for attribute POLE_LAT.")
  let proj ← ds.numAttr "MAP_PROJ"
  if proj = 1 then crs_pyproj_lcc ds
  else if proj = 2 then crs_pyproj_polarstereo ds
  else if proj = 0 ∨ proj = 102 ∨ proj = 3 ∨ proj = 4 ∨ proj = 5 ∨
      proj = 6 ∨ proj = 105 ∨ proj = 203 then
    throw (.notImplementedError "Projection code.")
  else
    throw (.valueError "Invalid projection code.")

-- Grid geometry accessor and horizontal interpolator

/-- `WRFDatasetAccessor.dimensionality`: classify a variable's dimension
labels into the ordered {t,z,y,x} code; unrecognized labels are a
`ValueError`. -/
def Dataset.dimensionality (ds : Dataset) (varname : String) :
    Except Err String := do
  let v ← ds.getVar varname
  v.dims.foldlM (fun acc d =>
    if d = "Time" then pure (acc ++ "t")
    else if d = "bottom_top" ∨ d = "bottom_top_stag" then pure (acc ++ "z")
    else if d = "south_north" ∨ d = "south_north_stag" then pure (acc ++ "y")
    else if d = "west_east" ∨ d = "west_east_stag" then pure (acc ++ "x")
    else throw (.valueError ("Unknown dimension: " ++ d ++ "."))) ""

/-- All row-major multi-indices of a given shape (numpy `flatten` order). -/
def idxList : List Nat → List (List Nat)
  | [] => [[]]
  | n :: rest => (List.range n).flatMap (fun k => (idxList rest).map (fun i => k :: i))

/-- `str.startswith(pre)`, modelled on character lists so that it computes
by kernel reduction. -/
def strStarts (pre s : String) : Bool := pre.toList.isPrefixOf s.toList

/-- The time-invariance loop of `lonlat_var`: every time slice of the
longitude and latitude arrays equals the first one. -/
def timeConstant (lon lat : Var) : Bool :=
  (List.range (lon.shape.headD 0)).all (fun t =>
    t == 0 || ((idxList (lon.shape.drop 1)).all (fun i =>
      lon.data (t :: i) == lon.data (0 :: i) &&
      lat.data (t :: i) == lat.data (0 :: i))))

/-- `v[0, :, :]`: select the first time slice, dropping the Time axis. -/
def Var.isel0 (v : Var) : Var :=
  { v with dims := v.dims.drop 1, shape := v.shape.drop 1,
           data := fun i => v.data (0 :: i) }

/-- `WRFDatasetAccessor.lonlat_var`: the staggered longitude/latitude pair
matching a variable's horizontal staggering, with the quality controls of
the code (consistent dims/shapes, Time-first, time-invariance). -/
def Dataset.lonlat_var (ds : Dataset) (varname : String) :
    Except Err (Var × Var) := do
  let v ← ds.getVar varname
  let dims := v.dims.filter
    (fun d => strStarts "south_north" d || strStarts "west_east" d)
  let names ←
    if dims = ["south_north", "west_east"] then
      pure (("XLONG", "XLAT") : String × String)
    else if dims = ["south_north_stag", "west_east"] then
      pure ("XLONG_V", "XLAT_V")
    else if dims = ["south_north", "west_east_stag"] then
      pure ("XLONG_U", "XLAT_U")
    else
      throw (.valueError ("Cannot get lon/lat for variable " ++ varname ++ "."))
  let lon ← ds.getVar names.1
  let lat ← ds.getVar names.2
  if lon.dims ≠ lat.dims ∨ lon.shape ≠ lat.shape then
    throw (.valueError "Inconsistent dims or shapes for longitudes and latitudes.")
  if lon.dims.headD "" ≠ "Time" then
    throw (.valueError ("Expecting first dimension to be Time, got " ++
      lon.dims.headD "" ++ "."))
  if ¬ timeConstant lon lat then
    throw (.valueError "Longitude and/or latitude not constant with time.")
  pure (lon.isel0, lat.isel0)

/-- The geodesy/triangulation collaborators consumed by the interpolator
(pyproj forward transform; scipy Delaunay + LinearNDInterpolator, taken
together as one function from grid points, flattened grid values, and a
query point to the interpolated value). -/
structure Providers where
  ll2xy : ℚ → ℚ → ℚ × ℚ
  interp : List (ℚ × ℚ) → List ℚ → ℚ × ℚ → ℚ

/-- A longitude/latitude query argument: scalar, vector, 2-D grid, or an
array of higher dimension `n` (whose contents are irrelevant: the code
rejects it before reading them). -/
inductive NpArg where
  | scalar (q : ℚ)
  | vec (l : List ℚ)
  | mat (m : List (List ℚ))
  | hd (n : Nat)
deriving Repr

/-- `np.meshgrid(xs, ys, indexing="xy")`. -/
def meshgridXY (xs ys : List ℚ) : List (List ℚ) × List (List ℚ) :=
  (ys.map (fun _ => xs), ys.map (fun b => xs.map (fun _ => b)))

/-- Shape of a 2-D array. -/
def matShape (m : List (List ℚ)) : Nat × Nat := (m.length, (m.headD []).length)

/-- Scalar wrapping, `np.array([lon])` for an argument without a shape. -/
def npWrap : NpArg → NpArg
  | .scalar q => .vec [q]
  | a => a

/-- The lon/lat preparation block of `interp_h`: wrap scalars, meshgrid
two vectors, reject anything that is not scalar/vector/2-D, require equal
shapes. -/
def resolveLonLat (lon lat : NpArg) :
    Except Err (List (List ℚ) × List (List ℚ)) := do
  let p ←
    match npWrap lon, npWrap lat with
    | .vec xs, .vec ys => pure (meshgridXY xs ys)
    | .mat m1, .mat m2 => pure ((m1, m2) : List (List ℚ) × List (List ℚ))
    | _, _ =>
      throw (.valueError "lon and lat must be scalars, vectors, or 2D arrays.")
  if matShape p.1 ≠ matShape p.2 then
    throw (.valueError "lon and lat must have the same shape.")
  pure p

/-- A time or level selector: a single (non-iterable) index or an iterable
of indices; `Option` of this models the Python `None` default. -/
inductive Sel where
  | one (i : Nat)
  | many (l : List Nat)
deriving DecidableEq, Repr

/-- `DataArray.isel` with a list of indices along given axis positions
(the axis keeps its name; its new size is the list's length). -/
def Var.iselLists (v : Var) (sel : List (Nat × List Nat)) : Var :=
  { v with
    shape := sel.foldl (fun sh pl => sh.set pl.1 pl.2.length) v.shape,
    data := fun i =>
      v.data (sel.foldl (fun j pl => j.set pl.1 (pl.2.getD (j.getD pl.1 0) 0)) i) }

/-- `WRFDatasetAccessor.interp_h`: horizontal interpolation of a native
variable at arbitrary lon/lat query points, across chosen time steps and
vertical levels.  The external geodesy and triangulation providers are
passed in as `pr`.  The result models the values/dims/shape/attrs of the
returned `DataArray`; the `XTIME` coordinate reconstruction is modelled
only by its `Times` lookup (whose failure behavior it determines). -/
def interp_h (pr : Providers) (ds : Dataset) (varname : String)
    (lon lat : NpArg) (times levels : Option Sel) : Except Err Var := do
  let data ← ds.getVar varname
  let dim ← ds.dimensionality varname
  let (lonM, latM) ← resolveLonLat lon lat
  -- Set up the list of time and level indices
  let tpos := dim.toList.findIdx (fun c => c == 't')
  let zpos := dim.toList.findIdx (fun c => c == 'z')
  let timesL : Option (List Nat) ←
    if ¬ dim.toList.contains 't' then
      if times ≠ none then
        throw (.valueError ("Cannot specify times for variable " ++ varname ++ "."))
      else pure none
    else
      match times with
      | none => pure (some (List.range (data.shape.getD tpos 0)))
      | some (.one k) => pure (some [k])
      | some (.many l) => pure (some l)
  let levelsL : Option (List Nat) ←
    if ¬ dim.toList.contains 'z' then
      if levels ≠ none then
        throw (.valueError ("Cannot specify levels for variable " ++ varname ++ "."))
      else pure none
    else
      match levels with
      | none => pure (some (List.range (data.shape.getD zpos 0)))
      | some (.one k) => pure (some [k])
      | some (.many l) => pure (some l)
  let selection :=
    (match timesL with | some l => [(tpos, l)] | none => []) ++
    (match levelsL with | some l => [(zpos, l)] | none => [])
  -- Prepare the interpolation
  let values_in := data.iselLists selection
  let (lonV, latV) ← ds.lonlat_var varname
  let pts := (idxList lonV.shape).map (fun i => pr.ll2xy (lonV.data i) (latV.data i))
  let qxy := fun (j i : Nat) =>
    pr.ll2xy ((lonM.getD j []).getD i 0) ((latM.getD j []).getD i 0)
  let qshape := matShape lonM
  -- For clarity, each dimensionality is handled separately (as in the code)
  if dim = "tyx" then
    let tl := timesL.getD []
    let _tv ← ds.getVar "Times"
    pure { name := ""
           dims := data.dims
           shape := [tl.length, qshape.1, qshape.2]
           attrs := data.attrs
           data := fun idx =>
             pr.interp pts
               ((idxList (values_in.shape.drop 1)).map
                 (fun rJ => values_in.data (idx.getD 0 0 :: rJ)))
               (qxy (idx.getD 1 0) (idx.getD 2 0)) }
  else if dim = "tzyx" then
    let tl := timesL.getD []
    let ll := levelsL.getD []
    let _tv ← ds.getVar "Times"
    pure { name := ""
           dims := data.dims
           shape := [tl.length, ll.length, qshape.1, qshape.2]
           attrs := data.attrs
           data := fun idx =>
             pr.interp pts
               ((idxList (values_in.shape.drop 2)).map
                 (fun rJ => values_in.data (idx.getD 0 0 :: idx.getD 1 0 :: rJ)))
               (qxy (idx.getD 2 0) (idx.getD 3 0)) }
  else
    throw (.valueError ("Unknown dimensionality: " ++ dim ++ "."))

-- Windowed neighborhood aggregation (`value_around_point`)

/-- Aggregation mode of `value_around_point`. -/
inductive AggMode where
  | centre
  | mean
  | min
  | max
deriving DecidableEq, Repr

/-- Modelled from the spec: `value_around_point` is repository code that is
not present under src/ (the testing script
`src/testing/plot-vertical-profiles.py` calls it on the accessor, but the
file defining it is missing).  Per the spec (section 4.4): `window` must be
a positive odd integer (else ValueError) giving the side length of a square
neighborhood of grid cells centered on the nearest gridpoint; the
neighborhood is clipped at domain edges without error; `centre` returns the
single nearest cell unmodified, the other modes reduce over the clipped
neighborhood along the two horizontal axes only, preserving all other
dimensions and attributes.  The geodesic nearest-gridpoint search is an
external-geodesy consumer, passed in as `nearest` (returning the x-index
and y-index of the nearest cell); the variable is assumed to carry its two
horizontal axes last, sizes `ny` by `nx`. -/
def value_around_point (nearest : ℚ → ℚ → Nat × Nat) (v : Var) (ny nx : Nat)
    (lon lat : ℚ) (mode : AggMode) (window : Int) : Except Err Var :=
  if window ≤ 0 ∨ window % 2 = 0 then
    .error (.valueError "window must be a positive odd integer")
  else
    let c := nearest lon lat
    let h := ((window - 1) / 2).toNat
    let rows := (List.range ny).filter (fun j => c.2 ≤ j + h && j ≤ c.2 + h)
    let cols := (List.range nx).filter (fun i => c.1 ≤ i + h && i ≤ c.1 + h)
    let cells := rows.flatMap (fun j => cols.map (fun i => (j, i)))
    let reduced := fun (f : List ℚ → ℚ) =>
      { v with dims := v.dims.dropLast.dropLast,
               shape := v.shape.dropLast.dropLast,
               data := fun i => f (cells.map (fun ji => v.data (i ++ [ji.1, ji.2]))) }
    match mode with
    | .centre =>
      .ok { v with dims := v.dims.dropLast.dropLast,
                   shape := v.shape.dropLast.dropLast,
                   data := fun i => v.data (i ++ [c.2, c.1]) }
    | .mean => .ok (reduced (fun l => l.sum / l.length))
    | .min => .ok (reduced (fun l => l.foldl Min.min (l.headD 0)))
    | .max => .ok (reduced (fun l => l.foldl Max.max (l.headD 0)))

-- Concrete fixtures used by the verification theorems below

/-- The dims of every unstaggered 4-D WRF field. -/
def dimsC : List String := ["Time", "bottom_top", "south_north", "west_east"]

/-- The dims of every vertically-staggered 4-D WRF field. -/
def dimsS : List String := ["Time", "bottom_top_stag", "south_north", "west_east"]

def sampleVarNoUnits : Var :=
  { name := "", dims := [], shape := [], attrs := [("long_name", "foo")],
    data := fun _ => 0 }

def sampleDs5 : Dataset :=
  { attrs := [], vars := [("FOO", sampleVarNoUnits)] }

def sampleVarMS : Var :=
  { name := "", dims := [], shape := [], attrs := [("units", "m/s")],
    data := fun _ => 0 }

def sampleDs10 : Dataset :=
  { attrs := [], vars := [("U10", sampleVarMS)] }

def sampleDs3 : Dataset :=
  { attrs := [("POLE_LON", .num 0), ("POLE_LAT", .num 90),
      ("MAP_PROJ", .num 3)], vars := [] }

def sampleDs4 : Dataset :=
  { attrs := [("POLE_LON", .num 0), ("POLE_LAT", .num 90),
      ("MAP_PROJ", .num 2), ("STAND_LON", .num 10), ("CEN_LON", .num 10),
      ("TRUELAT1", .num 71), ("TRUELAT2", .num 70), ("MOAD_CEN_LAT", .num 70),
      ("CEN_LAT", .num 70)], vars := [] }

/-- The unit requirements each derived quantity imposes on its direct raw
inputs, exactly as checked by the code (and as annotated in the spec's
derived-quantity chain). -/
def derivedUnitTable (rpow : ℚ → ℚ → ℚ) (qexp : ℚ → ℚ) :
    List ((Dataset → Slice → Except Err Var) × List (String × String)) :=
  [(potential_temperature, [("T", "K")]),
   (atm_pressure, [("P", "Pa"), ("PB", "Pa")]),
   (relative_humidity rpow qexp, [("QVAPOR", "kg kg-1")]),
   (accumulated_precipitation, [("RAINNC", "mm"), ("RAINC", "mm")]),
   (altitude_asl, [("PH", "m2 s-2"), ("PHB", "m2 s-2")]),
   (altitude_agl, [("HGT", "m")]),
   (cloud_liquid_water_path rpow, [("QCLOUD", "kg kg-1")])]

def hPaVar : Var :=
  { name := "", dims := ["Time"], shape := [1], attrs := [("units", "hPa")],
    data := fun _ => 0 }

def paVar : Var :=
  { name := "", dims := ["Time"], shape := [1], attrs := [("units", "Pa")],
    data := fun _ => 0 }

def sampleDs1 : Dataset :=
  { attrs := [], vars := [("P", hPaVar), ("PB", paVar)] }

def pRaw : Var :=
  { name := "", dims := ["Time", "bottom_top", "south_north", "west_east"],
    shape := [1, 2, 2, 2], attrs := [("units", "Pa")],
    data := fun i => (i.sum : ℚ) }

def pbRaw : Var :=
  { name := "", dims := ["Time", "bottom_top", "south_north", "west_east"],
    shape := [1, 2, 2, 2], attrs := [("units", "Pa")],
    data := fun i => (i.headD 0 : ℚ) + 7 }

def sampleDs2 : Dataset :=
  { attrs := [], vars := [("P", pRaw), ("PB", pbRaw)] }

def vTstd : Var :=
  { name := "", dims := dimsC, shape := [1, 2, 2, 2],
    attrs := [("units", "K")], data := fun i => (i.sum : ℚ) }

def vQCstd : Var :=
  { name := "", dims := dimsC, shape := [1, 2, 2, 2],
    attrs := [("units", "kg kg-1")], data := fun i => (i.sum : ℚ) / 100 }

def vPHstd : Var :=
  { name := "", dims := dimsS, shape := [1, 3, 2, 2],
    attrs := [("units", "m2 s-2")], data := fun i => (i.getD 1 0 : ℚ) * 981 }

def vPHBstd : Var :=
  { name := "", dims := dimsS, shape := [1, 3, 2, 2],
    attrs := [("units", "m2 s-2")], data := fun _ => 0 }

def sampleDs9 : Dataset :=
  { attrs := [],
    vars := [("T", vTstd), ("P", pRaw), ("PB", pbRaw), ("QCLOUD", vQCstd),
      ("PH", vPHstd), ("PHB", vPHBstd)] }

def wTzyx : Var :=
  { name := "", dims := dimsC, shape := [1, 2, 2, 2], attrs := [],
    data := fun _ => 0 }

def wTzx : Var :=
  { name := "", dims := ["Time", "bottom_top", "west_east"],
    shape := [1, 2, 2], attrs := [], data := fun _ => 0 }

def lonlatGrid : Var :=
  { name := "", dims := ["Time", "south_north", "west_east"],
    shape := [1, 2, 2], attrs := [], data := fun _ => 0 }

def timesVar : Var :=
  { name := "", dims := ["Time"], shape := [1], attrs := [],
    data := fun _ => 0 }

def sampleDs7 : Dataset :=
  { attrs := [],
    vars := [("W4", wTzyx), ("V3", wTzx), ("XLONG", lonlatGrid),
      ("XLAT", lonlatGrid), ("XLONG_U", lonlatGrid), ("XLAT_U", lonlatGrid),
      ("XLONG_V", lonlatGrid), ("XLAT_V", lonlatGrid),
      ("Times", timesVar)] }

def prSample : Providers :=
  { ll2xy := fun a b => (a, b), interp := fun _ _ _ => 0 }

-- Proof infrastructure

@[simp]
theorem ok_bind {α β : Type} (a : α) (f : α → Except Err β) :
    (Except.ok a >>= f) = f a := rfl

@[simp]
theorem error_bind {α β : Type} (e : Err) (f : α → Except Err β) :
    ((Except.error e : Except Err α) >>= f) = .error e := rfl

@[simp]
theorem throw_eq {α : Type} (e : Err) :
    (throw e : Except Err α) = .error e := rfl

@[simp]
theorem pure_eq {α : Type} (a : α) :
    (pure a : Except Err α) = .ok a := rfl

/-- `check_units` succeeds when the normalized recorded units are the
expected ones. -/
theorem check_units_ok {ds : Dataset} {nm e : String}
    (h : ds.units_nice nm = .ok (some e)) :
    ds.check_units nm e true = .ok () := by
  simp [Dataset.check_units, h]

/-- `check_units` raises the unit-mismatch error, carrying the expected
and the actual normalized units, when they differ. -/
theorem check_units_mismatch {ds : Dataset} {nm e : String}
    {a : Option String} (h : ds.units_nice nm = .ok a) (hne : a ≠ some e) :
    ds.check_units nm e true = .error (.unitMismatch e a) := by
  simp [Dataset.check_units, h, hne]

-- Claim theorems

/-- Claim C5: for every variable name, the units lookup returns the raw unit
string stored under the primary attribute key "units" if present,
otherwise the string stored under the fallback key "unit", and fails with
the missing-attribute error (Python `KeyError`, the spec's
MissingAttributeError) when neither key is present. -/
theorem units_primary_fallback (ds : Dataset) (nm : String) (v : Var)
    (hv : ds.getVar nm = .ok v) :
    (∀ u, v.attrs.lookup "units" = some u → ds.units nm = .ok u) ∧
    (v.attrs.lookup "units" = none →
      ∀ u, v.attrs.lookup "unit" = some u → ds.units nm = .ok u) ∧
    (v.attrs.lookup "units" = none → v.attrs.lookup "unit" = none →
      ds.units nm = .error (.missingKey "unit")) := by
  refine ⟨?_, ?_, ?_⟩
  · intro u hu
    simp [Dataset.units, hv, hu]
  · intro h0 u hu
    simp [Dataset.units, hv, h0, hu]
  · intro h0 h1
    simp [Dataset.units, hv, h0, h1]

/-- Witness for C5: a variable with neither "units" nor "unit" makes the
lookup fail with the missing-attribute error. -/
theorem units_primary_fallback_witness :
    sampleDs5.units "FOO" = .error (.missingKey "unit") :=
  (units_primary_fallback sampleDs5 "FOO" sampleVarNoUnits rfl).2.2 rfl rfl

/-- Claim C10: unit normalization is a finite literal lookup, not a general
parser: "-" and "1" normalize to `none` (dimensionless), the six literal
compound spellings of the table map to their canonical forms, and every
other string is returned verbatim. -/
theorem units_nice_literal_lookup (ds : Dataset) (nm u : String)
    (hu : ds.units nm = .ok u) :
    (u = "-" ∨ u = "1" → ds.units_nice nm = .ok none) ∧
    (u = "m2/s2" → ds.units_nice nm = .ok (some "m2 s-2")) ∧
    (u = "kg/m2" → ds.units_nice nm = .ok (some "kg m-2")) ∧
    (u = "kg/(s*m2)" → ds.units_nice nm = .ok (some "kg m-2 s-1")) ∧
    (u = "kg/(m2*s)" → ds.units_nice nm = .ok (some "kg m-2 s-1")) ∧
    (u = "kg/m2/s" → ds.units_nice nm = .ok (some "kg m-2 s-1")) ∧
    (u = "W m\x7b-2\x7d" → ds.units_nice nm = .ok (some "W m-2")) ∧
    (u ∉ ["-", "1", "m2/s2", "kg/m2", "kg/(s*m2)", "kg/(m2*s)", "kg/m2/s",
        "W m\x7b-2\x7d"] →
      ds.units_nice nm = .ok (some u)) := by
  refine ⟨?_, fun h => ?_, fun h => ?_, fun h => ?_, fun h => ?_, fun h => ?_,
    fun h => ?_, fun h => ?_⟩
  · rintro (rfl | rfl) <;> simp [Dataset.units_nice, hu, unitsReplacements]
  · subst h; simp [Dataset.units_nice, hu, unitsReplacements]
  · subst h; simp [Dataset.units_nice, hu, unitsReplacements]
  · subst h; simp [Dataset.units_nice, hu, unitsReplacements]
  · subst h; simp [Dataset.units_nice, hu, unitsReplacements]
  · subst h; simp [Dataset.units_nice, hu, unitsReplacements]
  · subst h; simp [Dataset.units_nice, hu, unitsReplacements]
  · simp only [List.mem_cons, List.not_mem_nil, or_false] at h
    push_neg at h
    obtain ⟨h1, h2, h3, h4, h5, h6, h7, h8⟩ := h
    simp [Dataset.units_nice, hu, unitsReplacements, h1, h2, h3, h4, h5, h6,
      h7, h8]

/-- Witness for C10: the unlisted slash form "m/s" is passed through
verbatim, not normalized. -/
theorem units_nice_literal_lookup_witness :
    sampleDs10.units_nice "U10" = .ok (some "m/s") :=
  (units_nice_literal_lookup sampleDs10 "U10" "m/s" rfl).2.2.2.2.2.2.2
    (by decide)

/-- Claim C8 (spec-modelled): `value_around_point` fails with a ValueError when
`window` is even or non-positive, and accepts every positive odd window
(the side length of the square neighborhood centered on the nearest
gridpoint). -/
theorem value_around_point_window_validation
    (nearest : ℚ → ℚ → Nat × Nat) (v : Var) (ny nx : Nat) (lon lat : ℚ)
    (mode : AggMode) (window : Int) :
    ((window ≤ 0 ∨ window % 2 = 0) →
      value_around_point nearest v ny nx lon lat mode window =
        .error (.valueError "window must be a positive odd integer")) ∧
    (0 < window → window % 2 = 1 →
      ∃ u, value_around_point nearest v ny nx lon lat mode window = .ok u) := by
  refine ⟨fun h => ?_, fun hpos hodd => ?_⟩
  · rw [value_around_point, if_pos h]
  · have hcond : ¬ (window ≤ 0 ∨ window % 2 = 0) := by omega
    rw [value_around_point, if_neg hcond]
    cases mode <;> exact ⟨_, rfl⟩

/-- Witness for C8: window 4 (even) and window -1 (non-positive) are
rejected; window 3 is accepted. -/
theorem value_around_point_window_validation_witness :
    (value_around_point (fun _ _ => (0, 0)) sampleVarMS 5 5 0 0 .mean 4 =
      .error (.valueError "window must be a positive odd integer")) ∧
    (value_around_point (fun _ _ => (0, 0)) sampleVarMS 5 5 0 0 .mean (-1) =
      .error (.valueError "window must be a positive odd integer")) ∧
    (∃ u, value_around_point (fun _ _ => (0, 0)) sampleVarMS 5 5 0 0 .mean 3 =
      .ok u) :=
  ⟨(value_around_point_window_validation _ _ _ _ _ _ _ _).1 (by decide),
   (value_around_point_window_validation _ _ _ _ _ _ _ _).1 (by decide),
   (value_around_point_window_validation _ _ _ _ _ _ _ _).2 (by decide)
     (by decide)⟩

/-- Claim C3: projection reconstruction rejects non-zero pole longitude and any
pole latitude other than plus/minus 90 with a ValueError; a
recognized-but-unsupported family code fails with NotImplementedError; any
other (unknown) code fails with ValueError; success happens only for the
Lambert Conformal Conic (1) and Polar Stereographic (2) codes. -/
theorem crs_pyproj_dispatch (ds : Dataset) (plon plat mp : ℚ)
    (hlon : ds.numAttr "POLE_LON" = .ok plon)
    (hlat : ds.numAttr "POLE_LAT" = .ok plat)
    (hmp : ds.numAttr "MAP_PROJ" = .ok mp) :
    (plon ≠ 0 → crs_pyproj ds = .error (.valueError "Invalid POLE_LON.")) ∧
    (plon = 0 → plat ≠ 90 → plat ≠ -90 →
      crs_pyproj ds =
        .error (.valueError "Invalid value for attribute POLE_LAT.")) ∧
    (plon = 0 → (plat = 90 ∨ plat = -90) →
      mp ∈ ([0, 102, 3, 4, 5, 6, 105, 203] : List ℚ) →
      crs_pyproj ds = .error (.notImplementedError "Projection code.")) ∧
    (plon = 0 → (plat = 90 ∨ plat = -90) →
      mp ≠ 1 → mp ≠ 2 → mp ∉ ([0, 102, 3, 4, 5, 6, 105, 203] : List ℚ) →
      crs_pyproj ds = .error (.valueError "Invalid projection code.")) ∧
    (∀ p, crs_pyproj ds = .ok p → mp = 1 ∨ mp = 2) := by
  have hflat : (plat = 90 ∨ plat = -90) → ¬ (plat ≠ 90 ∧ plat ≠ -90) := by
    tauto
  refine ⟨fun h => ?_, fun h0 h90 hm90 => ?_, fun h0 hpl hmem => ?_,
    fun h0 hpl h1 h2 hmem => ?_, fun p hp => ?_⟩
  · simp [crs_pyproj, hlon, hlat, hmp, h]
  · simp [crs_pyproj, hlon, hlat, hmp, h0, h90, hm90]
  · subst h0
    simp only [List.mem_cons, List.not_mem_nil, or_false] at hmem
    rcases hmem with rfl | rfl | rfl | rfl | rfl | rfl | rfl | rfl <;>
      simp [crs_pyproj, hlon, hlat, hmp, hflat hpl]
  · subst h0
    simp only [List.mem_cons, List.not_mem_nil, or_false] at hmem
    push_neg at hmem
    obtain ⟨m0, m102, m3, m4, m5, m6, m105, m203⟩ := hmem
    simp [crs_pyproj, hlon, hlat, hmp, hflat hpl, h1, h2, m0, m102, m3, m4,
      m5, m6, m105, m203]
  · by_contra hcon
    push_neg at hcon
    obtain ⟨h1, h2⟩ := hcon
    by_cases h0 : plon = 0
    · by_cases hpl : plat = 90 ∨ plat = -90
      · by_cases hmem : mp ∈ ([0, 102, 3, 4, 5, 6, 105, 203] : List ℚ)
        · simp only [List.mem_cons, List.not_mem_nil, or_false] at hmem
          rcases hmem with rfl | rfl | rfl | rfl | rfl | rfl | rfl | rfl <;>
            simp [crs_pyproj, hlon, hlat, hmp, hflat hpl, h0] at hp
        · simp only [List.mem_cons, List.not_mem_nil, or_false] at hmem
          push_neg at hmem
          obtain ⟨m0, m102, m3, m4, m5, m6, m105, m203⟩ := hmem
          simp [crs_pyproj, hlon, hlat, hmp, hflat hpl, h0, h1, h2, m0, m102,
            m3, m4, m5, m6, m105, m203] at hp
      · push_neg at hpl
        simp [crs_pyproj, hlon, hlat, hmp, h0, hpl.1, hpl.2] at hp
    · simp [crs_pyproj, hlon, hlat, hmp, h0] at hp

/-- Witness for C3: projection code 3 (Mercator, documented but
unsupported) fails with NotImplementedError. -/
theorem crs_pyproj_dispatch_witness :
    crs_pyproj sampleDs3 = .error (.notImplementedError "Projection code.") :=
  (crs_pyproj_dispatch sampleDs3 0 90 3 rfl rfl rfl).2.2.1 rfl (Or.inl rfl)
    (by decide)

/-- Claim C4: projection reconstruction fails with a ValueError whenever the
redundantly-stored metadata attributes disagree: for Lambert Conformal
Conic (code 1), STAND_LON must exactly equal CEN_LON and MOAD_CEN_LAT must
exactly equal CEN_LAT; for Polar Stereographic (code 2), each of TRUELAT1,
TRUELAT2, MOAD_CEN_LAT must equal CEN_LAT after rounding both to 4 decimal
places.  Inconsistent values are never silently resolved (the result is an
error, not a projection built from either value). -/
theorem crs_pyproj_redundancy (ds : Dataset) (plat : ℚ)
    (hlon : ds.numAttr "POLE_LON" = .ok 0)
    (hlat : ds.numAttr "POLE_LAT" = .ok plat)
    (hpl : plat = 90 ∨ plat = -90) :
    (∀ sl cl, ds.numAttr "MAP_PROJ" = .ok 1 →
      ds.attrD "MAP_PROJ_CHAR" (.str "Lambert Conformal Conic") =
        .str "Lambert Conformal Conic" →
      ds.numAttr "STAND_LON" = .ok sl → ds.numAttr "CEN_LON" = .ok cl →
      sl ≠ cl →
      crs_pyproj ds =
        .error (.valueError "Inconsistency in central longitude values.")) ∧
    (∀ sl ml ct, ds.numAttr "MAP_PROJ" = .ok 1 →
      ds.attrD "MAP_PROJ_CHAR" (.str "Lambert Conformal Conic") =
        .str "Lambert Conformal Conic" →
      ds.numAttr "STAND_LON" = .ok sl → ds.numAttr "CEN_LON" = .ok sl →
      ds.numAttr "MOAD_CEN_LAT" = .ok ml → ds.numAttr "CEN_LAT" = .ok ct →
      ml ≠ ct →
      crs_pyproj ds =
        .error (.valueError "Inconsistency in central latitude values.")) ∧
    (∀ sl t1 t2 ml ct, ds.numAttr "MAP_PROJ" = .ok 2 →
      ds.attrD "MAP_PROJ_CHAR" (.str "Polar Stereographic") =
        .str "Polar Stereographic" →
      ds.numAttr "STAND_LON" = .ok sl → ds.numAttr "CEN_LON" = .ok sl →
      ds.numAttr "TRUELAT1" = .ok t1 → ds.numAttr "TRUELAT2" = .ok t2 →
      ds.numAttr "MOAD_CEN_LAT" = .ok ml → ds.numAttr "CEN_LAT" = .ok ct →
      (round4 t1 ≠ round4 ct ∨ round4 t2 ≠ round4 ct ∨
        round4 ml ≠ round4 ct) →
      crs_pyproj ds =
        .error (.valueError "Inconsistency in true latitude values.")) := by
  have hflat : ¬ (plat ≠ 90 ∧ plat ≠ -90) := by tauto
  refine ⟨fun sl cl hmp hchar hsl hcl hne => ?_,
    fun sl ml ct hmp hchar hsl hcl hml hct hne => ?_,
    fun sl t1 t2 ml ct hmp hchar hsl hcl ht1 ht2 hml hct hne => ?_⟩
  · simp [crs_pyproj, crs_pyproj_lcc, hlon, hlat, hflat, hmp, hchar, hsl,
      hcl, hne]
  · simp [crs_pyproj, crs_pyproj_lcc, hlon, hlat, hflat, hmp, hchar, hsl,
      hcl, hml, hct, hne]
  · rcases hne with hne | hne | hne
    · simp [crs_pyproj, crs_pyproj_polarstereo, hlon, hlat, hflat, hmp,
        hchar, hsl, hcl, ht1, hct, hne]
    · by_cases h1 : round4 t1 = round4 ct
      · simp [crs_pyproj, crs_pyproj_polarstereo, hlon, hlat, hflat, hmp,
          hchar, hsl, hcl, ht1, ht2, hct, h1, hne]
      · simp [crs_pyproj, crs_pyproj_polarstereo, hlon, hlat, hflat, hmp,
          hchar, hsl, hcl, ht1, hct, h1]
    · by_cases h1 : round4 t1 = round4 ct
      · by_cases h2 : round4 t2 = round4 ct
        · simp [crs_pyproj, crs_pyproj_polarstereo, hlon, hlat, hflat, hmp,
            hchar, hsl, hcl, ht1, ht2, hml, hct, h1, h2, hne]
        · simp [crs_pyproj, crs_pyproj_polarstereo, hlon, hlat, hflat, hmp,
            hchar, hsl, hcl, ht1, ht2, hct, h1, h2]
      · simp [crs_pyproj, crs_pyproj_polarstereo, hlon, hlat, hflat, hmp,
          hchar, hsl, hcl, ht1, hct, h1]

/-- Witness for C4: a Polar Stereographic attribute map whose TRUELAT1
(71) disagrees with CEN_LAT (70) after rounding to 4 decimals fails with
the inconsistency ValueError. -/
theorem crs_pyproj_redundancy_witness :
    crs_pyproj sampleDs4 =
      .error (.valueError "Inconsistency in true latitude values.") :=
  (crs_pyproj_redundancy sampleDs4 90 rfl rfl (Or.inl rfl)).2.2 10 71 70 70 70
    rfl rfl rfl rfl rfl rfl rfl rfl
    (Or.inl (by norm_num [round4, round_eq]))

/-- Claim C1: for every derived quantity and every direct raw input with a
declared required unit, if the input's recorded (normalized) unit differs
from the required one, evaluation fails with the unit-mismatch error
carrying the expected and the actual normalized units of a mismatching
input.  Failure happens before any arithmetic on the data: the theorem
holds for arbitrary data contents (`ds` is universally quantified with the
mismatch constraint touching only attribute maps), and the `Except`-monad
evaluation short-circuits at the failing check, before the arithmetic
expression over the data is formed. -/
theorem derived_unit_mismatch_fails_fast (rpow : ℚ → ℚ → ℚ) (qexp : ℚ → ℚ)
    (ds : Dataset) (s : Slice) (f : Dataset → Slice → Except Err Var)
    (checks : List (String × String))
    (hmem : (f, checks) ∈ derivedUnitTable rpow qexp)
    (hrec : ∀ p ∈ checks, ∃ a, ds.units_nice p.1 = .ok a)
    (hbad : ∃ p ∈ checks, ∃ a, ds.units_nice p.1 = .ok a ∧ a ≠ some p.2) :
    ∃ nm e a, (nm, e) ∈ checks ∧ ds.units_nice nm = .ok a ∧ a ≠ some e ∧
      f ds s = .error (.unitMismatch e a) := by
  obtain ⟨p, hp, a, ha, hne⟩ := hbad
  simp only [derivedUnitTable, List.mem_cons, List.not_mem_nil, or_false,
    Prod.mk.injEq] at hmem
  rcases hmem with ⟨rfl, rfl⟩ | ⟨rfl, rfl⟩ | ⟨rfl, rfl⟩ | ⟨rfl, rfl⟩ |
    ⟨rfl, rfl⟩ | ⟨rfl, rfl⟩ | ⟨rfl, rfl⟩
  · -- potential temperature: T must be K
    simp only [List.mem_cons, List.not_mem_nil, or_false] at hp
    subst hp
    exact ⟨"T", "K", a, by simp, ha, hne,
      by simp [potential_temperature, check_units_mismatch ha hne]⟩
  · -- atmospheric pressure: P and PB must be Pa
    obtain ⟨aP, haP⟩ := hrec ("P", "Pa") (by simp)
    by_cases h1 : aP = some "Pa"
    · subst h1
      simp only [List.mem_cons, List.not_mem_nil, or_false] at hp
      rcases hp with rfl | rfl
      · rw [ha] at haP
        exact absurd (Except.ok.inj haP) hne
      · exact ⟨"PB", "Pa", a, by simp, ha, hne,
          by simp [atm_pressure, check_units_ok haP,
            check_units_mismatch ha hne]⟩
    · exact ⟨"P", "Pa", aP, by simp, haP, h1,
        by simp [atm_pressure, check_units_mismatch haP h1]⟩
  · -- relative humidity: QVAPOR must be kg kg-1
    simp only [List.mem_cons, List.not_mem_nil, or_false] at hp
    subst hp
    exact ⟨"QVAPOR", "kg kg-1", a, by simp, ha, hne,
      by simp [relative_humidity, check_units_mismatch ha hne]⟩
  · -- accumulated precipitation: RAINNC and RAINC must be mm
    obtain ⟨aP, haP⟩ := hrec ("RAINNC", "mm") (by simp)
    by_cases h1 : aP = some "mm"
    · subst h1
      simp only [List.mem_cons, List.not_mem_nil, or_false] at hp
      rcases hp with rfl | rfl
      · rw [ha] at haP
        exact absurd (Except.ok.inj haP) hne
      · exact ⟨"RAINC", "mm", a, by simp, ha, hne,
          by simp [accumulated_precipitation, check_units_ok haP,
            check_units_mismatch ha hne]⟩
    · exact ⟨"RAINNC", "mm", aP, by simp, haP, h1,
        by simp [accumulated_precipitation, check_units_mismatch haP h1]⟩
  · -- altitude ASL: PH and PHB must be m2 s-2
    obtain ⟨aP, haP⟩ := hrec ("PH", "m2 s-2") (by simp)
    by_cases h1 : aP = some "m2 s-2"
    · subst h1
      simp only [List.mem_cons, List.not_mem_nil, or_false] at hp
      rcases hp with rfl | rfl
      · rw [ha] at haP
        exact absurd (Except.ok.inj haP) hne
      · exact ⟨"PHB", "m2 s-2", a, by simp, ha, hne,
          by simp [altitude_asl, check_units_ok haP,
            check_units_mismatch ha hne]⟩
    · exact ⟨"PH", "m2 s-2", aP, by simp, haP, h1,
        by simp [altitude_asl, check_units_mismatch haP h1]⟩
  · -- altitude AGL: HGT must be m (checked before the ASL chain)
    simp only [List.mem_cons, List.not_mem_nil, or_false] at hp
    subst hp
    exact ⟨"HGT", "m", a, by simp, ha, hne,
      by simp [altitude_agl, check_units_mismatch ha hne]⟩
  · -- cloud liquid water path: QCLOUD must be kg kg-1
    simp only [List.mem_cons, List.not_mem_nil, or_false] at hp
    subst hp
    exact ⟨"QCLOUD", "kg kg-1", a, by simp, ha, hne,
      by simp [cloud_liquid_water_path, check_units_mismatch ha hne]⟩

/-- Witness for C1: pressure stored as "hPa" instead of "Pa" makes the
atmospheric-pressure evaluation fail with the unit-mismatch error. -/
theorem derived_unit_mismatch_fails_fast_witness :
    ∃ nm e a, (nm, e) ∈ [("P", "Pa"), ("PB", "Pa")] ∧
      sampleDs1.units_nice nm = .ok a ∧ a ≠ some e ∧
      atm_pressure sampleDs1 [] = .error (.unitMismatch e a) :=
  derived_unit_mismatch_fails_fast (fun a _ => a) (fun a => a) sampleDs1 []
    atm_pressure [("P", "Pa"), ("PB", "Pa")]
    (by exact List.Mem.tail _ (List.Mem.head _))
    (by intro p hp
        simp only [List.mem_cons, List.not_mem_nil, or_false] at hp
        rcases hp with rfl | rfl
        · exact ⟨some "hPa", rfl⟩
        · exact ⟨some "Pa", rfl⟩)
    ⟨("P", "Pa"), by simp, some "hPa", rfl, by simp⟩

-- Lemmas about index selection in aligned elementwise operations

theorem posIn_cons_self (d : String) (l : List String) : posIn (d :: l) d = 0 := by
  simp [posIn, List.findIdx_cons]

theorem posIn_cons_ne (d e : String) (l : List String) (h : d ≠ e) :
    posIn (d :: l) e = posIn l e + 1 := by
  have hb : (d == e) = false := by simpa using h
  simp [posIn, List.findIdx_cons, hb]

theorem map_posIn_self (dims : List String) (h : dims.Nodup) :
    dims.map (fun d => posIn dims d) = List.range dims.length := by
  induction dims with
  | nil => simp
  | cons d rest ih =>
    rw [List.nodup_cons] at h
    have hmap : rest.map (fun e => posIn (d :: rest) e) =
        rest.map (fun e => posIn rest e + 1) :=
      List.map_congr_left (fun e he =>
        posIn_cons_ne d e rest (fun hde => h.1 (hde ▸ he)))
    rw [List.map_cons, posIn_cons_self, hmap, List.length_cons,
      List.range_succ_eq_map]
    congr 1
    have hcomp : rest.map (fun e => posIn rest e + 1) =
        (rest.map (fun e => posIn rest e)).map (fun p => p + 1) := by
      rw [List.map_map]; rfl
    rw [hcomp, ih h.2]

theorem getD_range_map (l : List Nat) :
    (List.range l.length).map (fun p => l.getD p 0) = l := by
  induction l with
  | nil => simp
  | cons a t ih =>
    rw [List.length_cons, List.range_succ_eq_map, List.map_cons]
    have h0 : (a :: t).getD 0 0 = a := rfl
    have hcomp : ((List.range t.length).map Nat.succ).map
        (fun p => (a :: t).getD p 0) =
        (List.range t.length).map (fun p => t.getD p 0) := by
      rw [List.map_map]
      exact List.map_congr_left (fun p _ => rfl)
    rw [h0, hcomp, ih]

theorem selectDims_self (dims : List String) (i : List Nat)
    (hnd : dims.Nodup) (hl : i.length = dims.length) :
    selectDims dims dims i = i := by
  rw [selectDims, map_posIn_self dims hnd, ← hl, getD_range_map]

theorem filter_not_contains_self (l : List String) :
    l.filter (fun d => !(l.contains d)) = [] := by
  induction l with
  | nil => rfl
  | cons d rest _ =>
    apply List.filter_eq_nil_iff.mpr
    intro a ha
    simp [List.mem_cons.mp ha]

theorem ew_dims_same {a b : Var} (f : ℚ → ℚ → ℚ) (h : b.dims = a.dims) :
    (Var.ew f a b).dims = a.dims := by
  simp [Var.ew, h, filter_not_contains_self]

theorem ew_data_same {a b : Var} (f : ℚ → ℚ → ℚ) (h : b.dims = a.dims)
    (hnd : a.dims.Nodup) (i : List Nat) (hl : i.length = a.dims.length) :
    (Var.ew f a b).data i = f (a.data i) (b.data i) := by
  simp only [Var.ew, h, filter_not_contains_self, List.append_nil]
  rw [selectDims_self a.dims i hnd hl]

theorem ew_shape_same {a b : Var} (f : ℚ → ℚ → ℚ) (h : b.dims = a.dims)
    (hnd : a.dims.Nodup) (hs : a.shape.length = a.dims.length) :
    (Var.ew f a b).shape = a.shape := by
  simp only [Var.ew, h, filter_not_contains_self, List.append_nil]
  have hc : ∀ d ∈ a.dims,
      (if a.dims.contains d then a.shape.getD (posIn a.dims d) 0
       else b.shape.getD (posIn a.dims d) 0) =
      a.shape.getD (posIn a.dims d) 0 := by
    intro d hd
    simp [hd]
  rw [List.map_congr_left hc]
  have hcomp : a.dims.map (fun d => a.shape.getD (posIn a.dims d) 0) =
      (a.dims.map (fun d => posIn a.dims d)).map
        (fun p => a.shape.getD p 0) := by
    rw [List.map_map]; rfl
  rw [hcomp, map_posIn_self a.dims hnd, ← hs, getD_range_map]

/-- Claim C2: for every valid slice, the derived atmospheric pressure is exactly
the elementwise sum of the raw perturbation pressure `P` and the raw
base-state pressure `PB` over that slice, given both carry unit Pa. -/
theorem atm_pressure_elementwise_sum (ds : Dataset) (s : Slice) (p pb : Var)
    (hP : ds.units_nice "P" = .ok (some "Pa"))
    (hPB : ds.units_nice "PB" = .ok (some "Pa"))
    (hvP : ds.getVar "P" = .ok p) (hvPB : ds.getVar "PB" = .ok pb)
    (hdims : pb.dims = p.dims) (hnd : p.dims.Nodup) :
    ∃ v, atm_pressure ds s = .ok v ∧ v.dims = p.dims ∧
      ∀ i, i.length = p.dims.length →
        v.data i = p.data (applySliceIdx s i) + pb.data (applySliceIdx s i) := by
  simp only [atm_pressure, check_units_ok hP, check_units_ok hPB, hvP, hvPB,
    ok_bind, pure_eq]
  refine ⟨_, rfl, ?_, ?_⟩
  · show (Var.ew (· + ·) (p.getSlice s) (pb.getSlice s)).dims = p.dims
    rw [ew_dims_same _ (by simp [Var.getSlice, hdims])]
    simp [Var.getSlice]
  · intro i hl
    show (Var.ew (· + ·) (p.getSlice s) (pb.getSlice s)).data i = _
    rw [ew_data_same _ (by simp [Var.getSlice, hdims])
      (by simpa [Var.getSlice] using hnd) i (by simpa [Var.getSlice] using hl)]
    simp [Var.getSlice]

/-- Witness for C2: on a concrete dataset and the full slice, the derived
pressure at a concrete index equals the sum of the two raw fields there. -/
theorem atm_pressure_elementwise_sum_witness :
    ∃ v, atm_pressure sampleDs2 [] = .ok v ∧
      v.dims = pRaw.dims ∧
      ∀ i, i.length = pRaw.dims.length →
        v.data i = pRaw.data (applySliceIdx [] i) +
          pbRaw.data (applySliceIdx [] i) :=
  atm_pressure_elementwise_sum sampleDs2 [] pRaw pbRaw rfl rfl rfl rfl rfl
    (by decide)

-- Projection lemmas for the array operations (all definitional)

@[simp]
theorem getSlice_dims (v : Var) (s : Slice) : (v.getSlice s).dims = v.dims := rfl

@[simp]
theorem getSlice_shape (v : Var) (s : Slice) :
    (v.getSlice s).shape = applySliceShape s v.shape := rfl

@[simp]
theorem getSlice_data (v : Var) (s : Slice) (i : List Nat) :
    (v.getSlice s).data i = v.data (applySliceIdx s i) := rfl

@[simp]
theorem mapData_dims (f : ℚ → ℚ) (a : Var) : (a.mapData f).dims = a.dims := rfl

@[simp]
theorem mapData_shape (f : ℚ → ℚ) (a : Var) : (a.mapData f).shape = a.shape := rfl

@[simp]
theorem mapData_data (f : ℚ → ℚ) (a : Var) (i : List Nat) :
    (a.mapData f).data i = f (a.data i) := rfl

@[simp]
theorem mkDataArray_dims (v : Var) (nm : String) (ats : List (String × String)) :
    (mkDataArray v nm ats).dims = v.dims := rfl

@[simp]
theorem mkDataArray_shape (v : Var) (nm : String) (ats : List (String × String)) :
    (mkDataArray v nm ats).shape = v.shape := rfl

@[simp]
theorem mkDataArray_data (v : Var) (nm : String) (ats : List (String × String))
    (i : List Nat) : (mkDataArray v nm ats).data i = v.data i := rfl

@[simp]
theorem diff_dims (v : Var) (d : String) : (v.diff d).dims = v.dims := rfl

@[simp]
theorem diff_data (v : Var) (d : String) (i : List Nat) :
    (v.diff d).data i =
      v.data (i.set (posIn v.dims d) (i.getD (posIn v.dims d) 0 + 1)) -
        v.data i := rfl

@[simp]
theorem rename_dims (v : Var) (src dst : String) :
    (v.rename src dst).dims = v.dims.map (fun d => if d = src then dst else d) :=
  rfl

@[simp]
theorem rename_data (v : Var) (src dst : String) (i : List Nat) :
    (v.rename src dst).data i = v.data i := rfl

@[simp]
theorem sumDim_dims (v : Var) (d : String) :
    (v.sumDim d).dims = v.dims.eraseIdx (posIn v.dims d) := rfl

@[simp]
theorem sumDim_data (v : Var) (d : String) (i : List Nat) :
    (v.sumDim d).data i =
      ∑ k in Finset.range (v.shape.getD (posIn v.dims d) 0),
        v.data (i.take (posIn v.dims d) ++ k :: i.drop (posIn v.dims d)) := rfl

theorem applySliceShape_length (s : Slice) (sh : List Nat) :
    (applySliceShape s sh).length = sh.length := by
  induction s generalizing sh with
  | nil => cases sh <;> rfl
  | cons a s ih => cases sh <;> simp [applySliceShape, ih]

-- Evaluation lemmas for the derived-variable chain on standard 4-D fields

theorem ap_eval (ds : Dataset) (s : Slice) (vP vPB : Var)
    (huP : ds.units_nice "P" = .ok (some "Pa"))
    (huPB : ds.units_nice "PB" = .ok (some "Pa"))
    (hvP : ds.getVar "P" = .ok vP) (hvPB : ds.getVar "PB" = .ok vPB)
    (hPd : vP.dims = dimsC) (hPBd : vPB.dims = dimsC)
    (hPsh : vP.shape.length = 4) :
    ∃ v, atm_pressure ds s = .ok v ∧ v.dims = dimsC ∧
      v.shape = applySliceShape s vP.shape := by
  have hbd : (vPB.getSlice s).dims = (vP.getSlice s).dims := by
    simp [hPd, hPBd]
  have hnd : (vP.getSlice s).dims.Nodup := by
    simp only [getSlice_dims, hPd]; decide
  have hsl : (vP.getSlice s).shape.length = (vP.getSlice s).dims.length := by
    simp only [getSlice_shape, getSlice_dims, hPd, applySliceShape_length, hPsh]
    rfl
  refine ⟨mkDataArray (Var.ew (· + ·) (vP.getSlice s) (vPB.getSlice s))
      "atmospheric pressure"
      [("long_name", "Atmospheric pressure"), ("units", "Pa")],
    by simp [atm_pressure, check_units_ok huP, check_units_ok huPB, hvP,
      hvPB], ?_, ?_⟩
  · rw [mkDataArray_dims, ew_dims_same _ hbd, getSlice_dims, hPd]
  · rw [mkDataArray_shape, ew_shape_same _ hbd hnd hsl, getSlice_shape]

theorem pt_eval (ds : Dataset) (s : Slice) (vT : Var)
    (huT : ds.units_nice "T" = .ok (some "K"))
    (hvT : ds.getVar "T" = .ok vT) (hTd : vT.dims = dimsC) :
    ∃ v, potential_temperature ds s = .ok v ∧ v.dims = dimsC ∧
      v.shape = applySliceShape s vT.shape := by
  refine ⟨mkDataArray ((vT.getSlice s).mapData
        (fun q => constants "pot_temp_t0" + q))
      "potential temperature"
      [("long_name", "Potential temperature"), ("units", "K")],
    by simp [potential_temperature, check_units_ok huT, hvT], ?_, ?_⟩
  · rw [mkDataArray_dims, mapData_dims, getSlice_dims, hTd]
  · rw [mkDataArray_shape, mapData_shape, getSlice_shape]

theorem at_eval (rpow : ℚ → ℚ → ℚ) (ds : Dataset) (s : Slice) (vT vP vPB : Var)
    (huT : ds.units_nice "T" = .ok (some "K"))
    (huP : ds.units_nice "P" = .ok (some "Pa"))
    (huPB : ds.units_nice "PB" = .ok (some "Pa"))
    (hvT : ds.getVar "T" = .ok vT) (hTd : vT.dims = dimsC)
    (hvP : ds.getVar "P" = .ok vP) (hvPB : ds.getVar "PB" = .ok vPB)
    (hPd : vP.dims = dimsC) (hPBd : vPB.dims = dimsC)
    (hPsh : vP.shape.length = 4) (hTsh : vT.shape.length = 4) :
    ∃ v, air_temperature rpow ds s = .ok v ∧ v.dims = dimsC ∧
      v.shape = applySliceShape s vT.shape := by
  obtain ⟨pt, hpt, hptd, hptsh⟩ := pt_eval ds s vT huT hvT hTd
  obtain ⟨ap, hap, hapd, hapsh⟩ := ap_eval ds s vP vPB huP huPB hvP hvPB hPd
    hPBd hPsh
  have hbd : (ap.mapData
      (fun q => rpow (q / constants "pot_temp_p0")
        (constants "r_air" / constants "cp_air"))).dims = pt.dims := by
    rw [mapData_dims, hapd, hptd]
  have hnd : pt.dims.Nodup := by rw [hptd]; decide
  have hsl : pt.shape.length = pt.dims.length := by
    rw [hptsh, hptd, applySliceShape_length]
    simpa using hTsh
  refine ⟨mkDataArray (Var.ew (· * ·) pt
        (ap.mapData (fun q => rpow (q / constants "pot_temp_p0")
          (constants "r_air" / constants "cp_air"))))
      "air temperature"
      [("long_name", "Air temperature"), ("units", "K")],
    by simp [air_temperature, hpt, hap], ?_, ?_⟩
  · rw [mkDataArray_dims, ew_dims_same _ hbd, hptd]
  · rw [mkDataArray_shape, ew_shape_same _ hbd hnd hsl, hptsh]

theorem rho_eval (rpow : ℚ → ℚ → ℚ) (ds : Dataset) (s : Slice)
    (vT vP vPB : Var)
    (huT : ds.units_nice "T" = .ok (some "K"))
    (huP : ds.units_nice "P" = .ok (some "Pa"))
    (huPB : ds.units_nice "PB" = .ok (some "Pa"))
    (hvT : ds.getVar "T" = .ok vT) (hTd : vT.dims = dimsC)
    (hvP : ds.getVar "P" = .ok vP) (hvPB : ds.getVar "PB" = .ok vPB)
    (hPd : vP.dims = dimsC) (hPBd : vPB.dims = dimsC)
    (hPsh : vP.shape.length = 4) (hTsh : vT.shape.length = 4) :
    ∃ v, density_of_dry_air rpow ds s = .ok v ∧ v.dims = dimsC ∧
      v.shape = applySliceShape s vP.shape := by
  obtain ⟨ap, hap, hapd, hapsh⟩ := ap_eval ds s vP vPB huP huPB hvP hvPB hPd
    hPBd hPsh
  obtain ⟨ta, hta, htad, htash⟩ := at_eval rpow ds s vT vP vPB huT huP huPB
    hvT hTd hvP hvPB hPd hPBd hPsh hTsh
  have hbd : (ta.mapData (fun q => constants "r_air" * q)).dims = ap.dims := by
    rw [mapData_dims, htad, hapd]
  have hnd : ap.dims.Nodup := by rw [hapd]; decide
  have hsl : ap.shape.length = ap.dims.length := by
    rw [hapsh, hapd, applySliceShape_length]
    simpa using hPsh
  refine ⟨mkDataArray (Var.ew (· / ·) ap
        (ta.mapData (fun q => constants "r_air" * q)))
      "dry air density"
      [("long_name", "Dry air density"), ("units", "kg m-3")],
    by simp [density_of_dry_air, hap, hta], ?_, ?_⟩
  · rw [mkDataArray_dims, ew_dims_same _ hbd, hapd]
  · rw [mkDataArray_shape, ew_shape_same _ hbd hnd hsl, hapsh]

theorem asl_eval (ds : Dataset) (s : Slice) (vPH vPHB : Var)
    (huPH : ds.units_nice "PH" = .ok (some "m2 s-2"))
    (huPHB : ds.units_nice "PHB" = .ok (some "m2 s-2"))
    (hvPH : ds.getVar "PH" = .ok vPH) (hvPHB : ds.getVar "PHB" = .ok vPHB)
    (hPHd : vPH.dims = dimsS) (hPHBd : vPHB.dims = dimsS)
    (hPHsh : vPH.shape.length = 4) :
    ∃ v, altitude_asl ds s = .ok v ∧ v.dims = dimsS ∧
      v.shape = applySliceShape s vPH.shape := by
  have hbd : (vPHB.getSlice s).dims = (vPH.getSlice s).dims := by
    simp [hPHd, hPHBd]
  have hnd : (vPH.getSlice s).dims.Nodup := by
    simp only [getSlice_dims, hPHd]; decide
  have hsl : (vPH.getSlice s).shape.length = (vPH.getSlice s).dims.length := by
    simp only [getSlice_shape, getSlice_dims, hPHd, applySliceShape_length,
      hPHsh]
    rfl
  refine ⟨mkDataArray ((Var.ew (· + ·) (vPH.getSlice s)
        (vPHB.getSlice s)).mapData (fun q => q / constants "grav_accel"))
      "Altitude above sea level"
      [("long_name", "Altitude above sea level"), ("units", "m")],
    by simp [altitude_asl, check_units_ok huPH, check_units_ok huPHB, hvPH,
      hvPHB], ?_, ?_⟩
  · rw [mkDataArray_dims, mapData_dims, ew_dims_same _ hbd, getSlice_dims,
      hPHd]
  · rw [mkDataArray_shape, mapData_shape, ew_shape_same _ hbd hnd hsl,
      getSlice_shape]

/-- Claim C9: for every valid slice, the cloud liquid water path equals the sum
over the unstaggered vertical axis of (dry-air density times the
cloud-water mixing ratio `QCLOUD` times the box vertical extent dz), where
dz is the forward difference of altitude across adjacent staggered
vertical levels re-labelled onto the unstaggered vertical axis, and
`QCLOUD` is required to carry unit kg/kg.  The altitude-above-ground-level
reading of dz is captured by quantifying over an arbitrary terrain-height
field `hgt` (constant along the vertical axis): dz equals the forward
difference of (altitude-ASL − hgt), i.e. of altitude-AGL, for every such
field. -/
theorem cloud_liquid_water_path_formula (rpow : ℚ → ℚ → ℚ) (ds : Dataset)
    (s : Slice) (vT vP vPB vQC vPH vPHB : Var)
    (huT : ds.units_nice "T" = .ok (some "K"))
    (huP : ds.units_nice "P" = .ok (some "Pa"))
    (huPB : ds.units_nice "PB" = .ok (some "Pa"))
    (huQC : ds.units_nice "QCLOUD" = .ok (some "kg kg-1"))
    (huPH : ds.units_nice "PH" = .ok (some "m2 s-2"))
    (huPHB : ds.units_nice "PHB" = .ok (some "m2 s-2"))
    (hvT : ds.getVar "T" = .ok vT) (hTd : vT.dims = dimsC)
    (hvP : ds.getVar "P" = .ok vP) (hPd : vP.dims = dimsC)
    (hvPB : ds.getVar "PB" = .ok vPB) (hPBd : vPB.dims = dimsC)
    (hvQC : ds.getVar "QCLOUD" = .ok vQC) (hQCd : vQC.dims = dimsC)
    (hvPH : ds.getVar "PH" = .ok vPH) (hPHd : vPH.dims = dimsS)
    (hvPHB : ds.getVar "PHB" = .ok vPHB) (hPHBd : vPHB.dims = dimsS)
    (hPsh : vP.shape.length = 4) (hTsh : vT.shape.length = 4)
    (hPHsh : vPH.shape.length = 4) :
    ∃ rho asl v,
      density_of_dry_air rpow ds s = .ok rho ∧
      altitude_asl ds s = .ok asl ∧
      cloud_liquid_water_path rpow ds s = .ok v ∧
      v.dims = ["Time", "south_north", "west_east"] ∧
      ∀ t j i (hgt : Nat → Nat → Nat → ℚ),
        v.data [t, j, i] =
          ∑ k in Finset.range ((applySliceShape s vP.shape).getD 1 0),
            rho.data [t, k, j, i] *
              vQC.data (applySliceIdx s [t, k, j, i]) *
              ((asl.data [t, k + 1, j, i] - hgt t j i) -
                (asl.data [t, k, j, i] - hgt t j i)) := by
  obtain ⟨rho, hρ, hρd, hρsh⟩ := rho_eval rpow ds s vT vP vPB huT huP huPB
    hvT hTd hvP hvPB hPd hPBd hPsh hTsh
  obtain ⟨asl, hasl, hasld, haslsh⟩ := asl_eval ds s vPH vPHB huPH huPHB
    hvPH hvPHB hPHd hPHBd hPHsh
  -- the internal pieces of the computation
  have hbhd : ((asl.diff "bottom_top_stag").rename "bottom_top_stag"
      "bottom_top").dims = dimsC := by
    rw [rename_dims, diff_dims, hasld]
    decide
  have hqcd : (vQC.getSlice s).dims = rho.dims := by
    rw [getSlice_dims, hQCd, hρd]
  have hρnd : rho.dims.Nodup := by rw [hρd]; decide
  have hρsl : rho.shape.length = rho.dims.length := by
    rw [hρsh, hρd, applySliceShape_length]
    simpa using hPsh
  have hcwcd : (Var.ew (· * ·) rho (vQC.getSlice s)).dims = dimsC := by
    rw [ew_dims_same _ hqcd, hρd]
  have hcwcsh : (Var.ew (· * ·) rho (vQC.getSlice s)).shape = rho.shape :=
    ew_shape_same _ hqcd hρnd hρsl
  have hcwcnd : (Var.ew (· * ·) rho (vQC.getSlice s)).dims.Nodup := by
    rw [hcwcd]; decide
  have hcwcsl : (Var.ew (· * ·) rho (vQC.getSlice s)).shape.length =
      (Var.ew (· * ·) rho (vQC.getSlice s)).dims.length := by
    rw [hcwcsh, hcwcd, hρsl, hρd]
  have hbhd' : ((asl.diff "bottom_top_stag").rename "bottom_top_stag"
      "bottom_top").dims = (Var.ew (· * ·) rho (vQC.getSlice s)).dims := by
    rw [hbhd, hcwcd]
  have hlwpd : (Var.ew (· * ·) (Var.ew (· * ·) rho (vQC.getSlice s))
      ((asl.diff "bottom_top_stag").rename "bottom_top_stag"
        "bottom_top")).dims = dimsC := by
    rw [ew_dims_same _ hbhd', hcwcd]
  have hlwpsh : (Var.ew (· * ·) (Var.ew (· * ·) rho (vQC.getSlice s))
      ((asl.diff "bottom_top_stag").rename "bottom_top_stag"
        "bottom_top")).shape = rho.shape := by
    rw [ew_shape_same _ hbhd' hcwcnd hcwcsl, hcwcsh]
  refine ⟨rho, asl,
    mkDataArray ((Var.ew (· * ·) (Var.ew (· * ·) rho (vQC.getSlice s))
        ((asl.diff "bottom_top_stag").rename "bottom_top_stag"
          "bottom_top")).sumDim "bottom_top")
      "cloud liquid water path"
      [("long_name", "Cloud liquid water path"), ("units", "kg m-2")],
    hρ, hasl,
    by simp [cloud_liquid_water_path, check_units_ok huQC, hvQC, hρ, hasl],
    ?_, ?_⟩
  · rw [mkDataArray_dims, sumDim_dims, hlwpd]
    decide
  · intro t j i hgt
    rw [mkDataArray_data, sumDim_data, hlwpd, hlwpsh, hρsh]
    have hpos : posIn dimsC "bottom_top" = 1 := by decide
    rw [hpos]
    refine Finset.sum_congr rfl (fun k _ => ?_)
    have htake : ([t, j, i].take 1 ++ k :: [t, j, i].drop 1) = [t, k, j, i] :=
      rfl
    rw [htake]
    rw [ew_data_same _ hbhd' hcwcnd _ (by rw [hcwcd]; rfl)]
    rw [ew_data_same _ hqcd hρnd _ (by rw [hρd]; rfl)]
    rw [rename_data, diff_data, hasld]
    have hpos2 : posIn dimsS "bottom_top_stag" = 1 := by decide
    rw [hpos2]
    have hset : ([t, k, j, i].set 1 ([t, k, j, i].getD 1 0 + 1)) =
        [t, k + 1, j, i] := rfl
    rw [hset, getSlice_data]
    ring

/-- Witness for C9: on a concrete dataset with standard dims and the full
slice, the cloud liquid water path satisfies the vertical-sum formula. -/
theorem cloud_liquid_water_path_formula_witness :
    ∃ rho asl v,
      density_of_dry_air (fun a _ => a) sampleDs9 [] = .ok rho ∧
      altitude_asl sampleDs9 [] = .ok asl ∧
      cloud_liquid_water_path (fun a _ => a) sampleDs9 [] = .ok v ∧
      v.dims = ["Time", "south_north", "west_east"] ∧
      ∀ t j i (hgt : Nat → Nat → Nat → ℚ),
        v.data [t, j, i] =
          ∑ k in Finset.range ((applySliceShape [] pRaw.shape).getD 1 0),
            rho.data [t, k, j, i] *
              vQCstd.data (applySliceIdx [] [t, k, j, i]) *
              ((asl.data [t, k + 1, j, i] - hgt t j i) -
                (asl.data [t, k, j, i] - hgt t j i)) :=
  cloud_liquid_water_path_formula (fun a _ => a) sampleDs9 [] vTstd pRaw
    pbRaw vQCstd vPHstd vPHBstd rfl rfl rfl rfl rfl rfl rfl rfl rfl rfl rfl
    rfl rfl rfl rfl rfl rfl rfl rfl rfl rfl

-- Case-analysis lemmas for the horizontal interpolator

theorem resolveLonLat_ok_or_valueError (lon lat : NpArg) :
    (∃ m, resolveLonLat lon lat = .ok m) ∨
    (∃ msg, resolveLonLat lon lat = .error (.valueError msg)) := by
  rcases lon with q | l | m | n <;> rcases lat with q2 | l2 | m2 | n2 <;>
    simp only [resolveLonLat, npWrap, ok_bind, error_bind, throw_eq,
      pure_eq] <;>
    first
      | exact Or.inr ⟨_, rfl⟩
      | (split
         · exact Or.inr ⟨_, rfl⟩
         · exact Or.inl ⟨_, rfl⟩)

theorem lonlat_var_ok_or_valueError (ds : Dataset) (varname : String)
    (v : Var) (hv : ds.getVar varname = .ok v)
    (hco : ∀ nm ∈ ["XLONG", "XLAT", "XLONG_U", "XLAT_U", "XLONG_V", "XLAT_V"],
      ∃ u, ds.getVar nm = .ok u) :
    (∃ m, ds.lonlat_var varname = .ok m) ∨
    (∃ msg, ds.lonlat_var varname = .error (.valueError msg)) := by
  obtain ⟨lonC, hlonC⟩ := hco "XLONG" (by simp)
  obtain ⟨latC, hlatC⟩ := hco "XLAT" (by simp)
  obtain ⟨lonV, hlonV⟩ := hco "XLONG_V" (by simp)
  obtain ⟨latV, hlatV⟩ := hco "XLAT_V" (by simp)
  obtain ⟨lonU, hlonU⟩ := hco "XLONG_U" (by simp)
  obtain ⟨latU, hlatU⟩ := hco "XLAT_U" (by simp)
  unfold Dataset.lonlat_var
  rw [hv]
  simp only [ok_bind]
  set dims := v.dims.filter
    (fun d => strStarts "south_north" d || strStarts "west_east" d) with hdims
  by_cases h1 : dims = ["south_north", "west_east"]
  · rw [if_pos h1]
    simp only [ok_bind, pure_eq, hlonC, hlatC]
    split
    · exact Or.inr ⟨_, rfl⟩
    · split
      · exact Or.inr ⟨_, rfl⟩
      · split
        · exact Or.inr ⟨_, rfl⟩
        · exact Or.inl ⟨_, rfl⟩
  · rw [if_neg h1]
    by_cases h2 : dims = ["south_north_stag", "west_east"]
    · rw [if_pos h2]
      simp only [ok_bind, pure_eq, hlonV, hlatV]
      split
      · exact Or.inr ⟨_, rfl⟩
      · split
        · exact Or.inr ⟨_, rfl⟩
        · split
          · exact Or.inr ⟨_, rfl⟩
          · exact Or.inl ⟨_, rfl⟩
    · rw [if_neg h2]
      by_cases h3 : dims = ["south_north", "west_east_stag"]
      · rw [if_pos h3]
        simp only [ok_bind, pure_eq, hlonU, hlatU]
        split
        · exact Or.inr ⟨_, rfl⟩
        · split
          · exact Or.inr ⟨_, rfl⟩
          · split
            · exact Or.inr ⟨_, rfl⟩
            · exact Or.inl ⟨_, rfl⟩
      · rw [if_neg h3]
        exact Or.inr ⟨_, rfl⟩

/-- Claim C7 (amended): horizontal interpolation supports exactly the variable
dimensionalities time-by-y-by-x ("tyx") and time-by-level-by-y-by-x
("tzyx"): a successful interpolation implies the dimensionality is one of
the two; any other dimensionality fails with a ValueError (given the
coordinate variables exist); and supplying a times selector for a variable
without a time axis, or a levels selector for a variable without a
vertical axis, fails with a ValueError. -/
theorem interp_h_dimensionality_support (pr : Providers) (ds : Dataset)
    (varname : String) (lon lat : NpArg) (times levels : Option Sel)
    (v : Var) (d : String)
    (hv : ds.getVar varname = .ok v)
    (hd : ds.dimensionality varname = .ok d)
    (hco : ∀ nm ∈ ["XLONG", "XLAT", "XLONG_U", "XLAT_U", "XLONG_V", "XLAT_V"],
      ∃ u, ds.getVar nm = .ok u) :
    ((∃ u, interp_h pr ds varname lon lat times levels = .ok u) →
      d = "tyx" ∨ d = "tzyx") ∧
    (d ≠ "tyx" → d ≠ "tzyx" →
      ∃ msg, interp_h pr ds varname lon lat times levels =
        .error (.valueError msg)) ∧
    (∀ mm, resolveLonLat lon lat = .ok mm → ¬ d.toList.contains 't' →
      times ≠ none →
      interp_h pr ds varname lon lat times levels =
        .error (.valueError
          ("Cannot specify times for variable " ++ varname ++ "."))) ∧
    (∀ mm, resolveLonLat lon lat = .ok mm →
      (d.toList.contains 't' ∨ times = none) → ¬ d.toList.contains 'z' →
      levels ≠ none →
      interp_h pr ds varname lon lat times levels =
        .error (.valueError
          ("Cannot specify levels for variable " ++ varname ++ "."))) := by
  have hmain : d ≠ "tyx" → d ≠ "tzyx" →
      ∃ msg, interp_h pr ds varname lon lat times levels =
        .error (.valueError msg) := by
    intro h1 h2
    unfold interp_h
    rw [hv, hd]
    simp only [ok_bind]
    rcases resolveLonLat_ok_or_valueError lon lat with ⟨mm, hmm⟩ | ⟨msg, hmm⟩
    · obtain ⟨m1, m2⟩ := mm
      rw [hmm]
      simp only [ok_bind]
      by_cases hct : d.toList.contains 't'
      · simp only [hct, not_true_eq_false, if_false]
        rcases times with _ | k | l <;>
          simp only [ok_bind, pure_eq] <;>
          [skip; skip; skip] <;>
          · by_cases hcz : d.toList.contains 'z'
            · simp only [hcz, not_true_eq_false, if_false]
              rcases levels with _ | k2 | l2 <;>
                simp only [ok_bind, pure_eq] <;>
                · rcases lonlat_var_ok_or_valueError ds varname v hv hco with
                    ⟨pp, hpp⟩ | ⟨msg2, hpp⟩
                  · obtain ⟨pl, pt⟩ := pp
                    rw [hpp]
                    simp only [ok_bind]
                    rw [if_neg h1, if_neg h2]
                    exact ⟨_, rfl⟩
                  · rw [hpp]
                    simp only [error_bind]
                    exact ⟨_, rfl⟩
            · simp only [hcz, not_false_eq_true, if_true]
              rcases levels with _ | k2 | l2
              · simp only [ok_bind, pure_eq]
                rcases lonlat_var_ok_or_valueError ds varname v hv hco with
                    ⟨pp, hpp⟩ | ⟨msg2, hpp⟩
                · obtain ⟨pl, pt⟩ := pp
                  rw [hpp]
                  simp only [ok_bind]
                  rw [if_neg h1, if_neg h2]
                  exact ⟨_, rfl⟩
                · rw [hpp]
                  simp only [error_bind]
                  exact ⟨_, rfl⟩
              all_goals
                simp only [reduceCtorEq, ne_eq, not_false_eq_true, if_true,
                  throw_eq, error_bind]
              all_goals exact ⟨_, rfl⟩
      · simp only [hct, not_false_eq_true, if_true]
        rcases times with _ | k | l
        · simp only [ok_bind, pure_eq]
          by_cases hcz : d.toList.contains 'z'
          · simp only [hcz, not_true_eq_false, if_false]
            rcases levels with _ | k2 | l2 <;>
              simp only [ok_bind, pure_eq] <;>
              · rcases lonlat_var_ok_or_valueError ds varname v hv hco with
                  ⟨pp, hpp⟩ | ⟨msg2, hpp⟩
                · obtain ⟨pl, pt⟩ := pp
                  rw [hpp]
                  simp only [ok_bind]
                  rw [if_neg h1, if_neg h2]
                  exact ⟨_, rfl⟩
                · rw [hpp]
                  simp only [error_bind]
                  exact ⟨_, rfl⟩
          · simp only [hcz, not_false_eq_true, if_true]
            rcases levels with _ | k2 | l2
            · simp only [ok_bind, pure_eq]
              rcases lonlat_var_ok_or_valueError ds varname v hv hco with
                  ⟨pp, hpp⟩ | ⟨msg2, hpp⟩
              · obtain ⟨pl, pt⟩ := pp
                rw [hpp]
                simp only [ok_bind]
                rw [if_neg h1, if_neg h2]
                exact ⟨_, rfl⟩
              · rw [hpp]
                simp only [error_bind]
                exact ⟨_, rfl⟩
            all_goals
              simp only [reduceCtorEq, ne_eq, not_false_eq_true, if_true,
                throw_eq, error_bind]
            all_goals exact ⟨_, rfl⟩
        all_goals
          simp only [reduceCtorEq, ne_eq, not_false_eq_true, if_true,
            throw_eq, error_bind]
        all_goals exact ⟨_, rfl⟩
    · rw [hmm]
      simp only [error_bind]
      exact ⟨_, rfl⟩
  refine ⟨?_, hmain, ?_, ?_⟩
  · rintro ⟨u, hu⟩
    by_contra hcon
    push_neg at hcon
    obtain ⟨msg, hmsg⟩ := hmain hcon.1 hcon.2
    rw [hu] at hmsg
    exact Except.noConfusion hmsg
  · intro mm hmm hct ht
    unfold interp_h
    rw [hv, hd]
    simp only [ok_bind]
    obtain ⟨m1, m2⟩ := mm
    rw [hmm]
    simp only [ok_bind]
    simp only [hct, not_false_eq_true, if_true]
    rw [if_pos ht]
    rfl
  · intro mm hmm hcase hcz hl
    unfold interp_h
    rw [hv, hd]
    simp only [ok_bind]
    obtain ⟨m1, m2⟩ := mm
    rw [hmm]
    simp only [ok_bind]
    rcases hcase with hct | ht
    · simp only [hct, not_true_eq_false, if_false]
      rcases times with _ | k | l <;>
        simp only [ok_bind, pure_eq] <;>
        simp only [hcz, not_false_eq_true, if_true] <;>
        rw [if_pos hl] <;>
        simp
    · subst ht
      by_cases hct : d.toList.contains 't'
      · simp only [hct, not_true_eq_false, if_false]
        simp only [ok_bind, pure_eq]
        simp only [hcz, not_false_eq_true, if_true]
        rw [if_pos hl]
        simp
      · simp only [hct, not_false_eq_true, if_true]
        simp only [reduceCtorEq, ne_eq, not_true_eq_false, if_false, ok_bind,
          pure_eq, ite_self]
        simp only [hcz, not_false_eq_true, if_true]
        rw [if_pos hl]
        simp

/-- Claim C7 counterexample: the claim names time-by-y-by-x and
time-by-level-by-x ("tzx") as the exactly-supported dimensionalities, with
every other dimensionality failing with a ValueError.  On this concrete
dataset, a time-by-level-by-y-by-x ("tzyx") variable — "any other
dimensionality" under the claim — interpolates successfully, and a "tzx"
variable fails with a ValueError, so the claim as stated is false on both
counts. -/
theorem interp_h_tzx_unsupported_tzyx_supported :
    sampleDs7.dimensionality "W4" = .ok "tzyx" ∧
    (∃ u, interp_h prSample sampleDs7 "W4" (.scalar 0) (.scalar 0)
      none none = .ok u) ∧
    sampleDs7.dimensionality "V3" = .ok "tzx" ∧
    interp_h prSample sampleDs7 "V3" (.scalar 0) (.scalar 0) none none =
      .error (.valueError "Cannot get lon/lat for variable V3.") :=
  ⟨rfl, ⟨_, by rfl⟩, rfl, by rfl⟩

/-- Witness for the amended C7 theorem: applied to the concrete "tzx"
variable, it yields a ValueError. -/
theorem interp_h_dimensionality_support_witness :
    ∃ msg, interp_h prSample sampleDs7 "V3" (.scalar 0) (.scalar 0)
      none none = .error (.valueError msg) :=
  (interp_h_dimensionality_support prSample sampleDs7 "V3" (.scalar 0)
    (.scalar 0) none none wTzx "tzx" rfl rfl
    (by intro nm hnm
        simp only [List.mem_cons, List.not_mem_nil, or_false] at hnm
        rcases hnm with rfl | rfl | rfl | rfl | rfl | rfl
        · exact ⟨lonlatGrid, rfl⟩
        · exact ⟨lonlatGrid, rfl⟩
        · exact ⟨lonlatGrid, rfl⟩
        · exact ⟨lonlatGrid, rfl⟩
        · exact ⟨lonlatGrid, rfl⟩
        · exact ⟨lonlatGrid, rfl⟩)).2.1 (by decide) (by decide)

end WrfPP
